import Mathlib

/-!
# godbmodels: the character store

A shallow embedding of the `vanilla`, `mapper`, `builder` and `sqlc` variants of the
character store of `pboyd/godbmodels`, together with a small relational engine standing
for the SQLite connection the Go code talks to.

Conventions of the embedding:
* `int64` fields are `Int`; none of the embedded code does arithmetic on them.
* a Go `error` result is `Option Error` (`none` is `nil`), a `*Character` result is
  `Option Character` (`none` is the nil pointer).
* `strings.ToLower` belongs to the Go standard library and is taken as a parameter
  `ToLower : String → String` wherever the source calls it.
-/

set_option autoImplicit false

namespace GoDBModels

/-! ## Values and errors -/

/-- Dynamically typed value bound to a placeholder or read from a column
(`interface{}` holding an `int64` or a `string`). -/
inductive Value where
  | int (v : Int)
  | str (s : String)
  deriving DecidableEq, Repr

/-- Go error values that occur in the store: the package-level `ErrNotFound`,
`sql.ErrNoRows`, a failure surfaced by the driver, a scan failure, and
`fmt.Errorf("<context>: %w", cause)`. -/
inductive Error where
  | ErrNotFound
  | ErrNoRows
  | driver (msg : String)
  | scan
  | wrap (context : String) (cause : Error)
  deriving DecidableEq, Repr

/-- Go `errors.Is`: the error itself or some error in its `%w` chain equals the target. -/
def Error.Is : Error → Error → Bool
  | .wrap ctx cause, target => decide (Error.wrap ctx cause = target) || cause.Is target
  | e, target => decide (e = target)

/-- Go `strings.Join`. -/
def strings.Join : List String → String → String
  | [], _ => ""
  | [a], _ => a
  | a :: b :: rest, sep => a ++ sep ++ strings.Join (b :: rest) sep

/-! ## Data model (identical in the four packages) -/

/-- Character is one character from the database. -/
structure Character where
  ID : Int
  ActorID : Int
  Name : String
  deriving DecidableEq, Repr

/-- CharacterFilters are used to filter the results of a List query. -/
structure CharacterFilters where
  ActorID : Int
  ActorName : String
  Name : String
  SceneNumber : Int
  deriving DecidableEq, Repr

/-- Local variables `joins`, `where` and `args` of `List` after the filter block. -/
structure ListPlan where
  joins : List String
  where_ : List String
  args : List Value
  deriving DecidableEq, Repr

/-! ## vanilla: query construction of `CharacterStore.List` -/

namespace Vanilla

/-- Lines 116-141 of `vanilla/characters.go`: the filter block of `List`. -/
def listPlan (ToLower : String → String) (filters : Option CharacterFilters) : ListPlan :=
  let p : ListPlan := ⟨[], [], []⟩
  match filters with
  | none => p
  | some filters =>
    let p : ListPlan :=
      if filters.ActorID ≠ 0 then
        ⟨p.joins, p.where_ ++ ["c.actor_id = ?"], p.args ++ [Value.int filters.ActorID]⟩
      else if filters.ActorName ≠ "" then
        ⟨p.joins ++ ["JOIN actors a ON a.id = c.actor_id"],
         p.where_ ++ ["LOWER(a.name) LIKE ?"],
         p.args ++ [Value.str ("%" ++ ToLower filters.ActorName ++ "%")]⟩
      else p
    let p : ListPlan :=
      if filters.Name ≠ "" then
        ⟨p.joins, p.where_ ++ ["LOWER(c.name) LIKE ?"],
         p.args ++ [Value.str ("%" ++ ToLower filters.Name ++ "%")]⟩
      else p
    let p : ListPlan :=
      if filters.SceneNumber ≠ 0 then
        ⟨p.joins ++ ["JOIN scene_characters sc ON sc.character_id = c.id"],
         p.where_ ++ ["sc.scene_id = ?"],
         p.args ++ [Value.int filters.SceneNumber]⟩
      else p
    p

/-- Lines 117 and 143-149 of `vanilla/characters.go`: the query text of `List`. -/
def listQuery (p : ListPlan) : String :=
  let query := "SELECT c.id, c.actor_id, c.name FROM characters c"
  let query := if p.joins.length > 0 then query ++ " " ++ strings.Join p.joins " " else query
  let query := if p.where_.length > 0 then query ++ " WHERE " ++ strings.Join p.where_ " AND " else query
  query

end Vanilla

/-! ## mapper: query construction of `CharacterStore.List` -/

namespace Mapper

/-- Lines 128-153 of `mapper/characters.go`: the filter block of `List`. -/
def listPlan (ToLower : String → String) (filters : Option CharacterFilters) : ListPlan :=
  let p : ListPlan := ⟨[], [], []⟩
  match filters with
  | none => p
  | some filters =>
    let p : ListPlan :=
      if filters.ActorID ≠ 0 then
        ⟨p.joins, p.where_ ++ ["c.actor_id = ?"], p.args ++ [Value.int filters.ActorID]⟩
      else if filters.ActorName ≠ "" then
        ⟨p.joins ++ ["JOIN actors a ON a.id = c.actor_id"],
         p.where_ ++ ["LOWER(a.name) LIKE ?"],
         p.args ++ [Value.str ("%" ++ ToLower filters.ActorName ++ "%")]⟩
      else p
    let p : ListPlan :=
      if filters.Name ≠ "" then
        ⟨p.joins, p.where_ ++ ["LOWER(c.name) LIKE ?"],
         p.args ++ [Value.str ("%" ++ ToLower filters.Name ++ "%")]⟩
      else p
    let p : ListPlan :=
      if filters.SceneNumber ≠ 0 then
        ⟨p.joins ++ ["JOIN scene_characters sc ON sc.character_id = c.id"],
         p.where_ ++ ["sc.scene_id = ?"],
         p.args ++ [Value.int filters.SceneNumber]⟩
      else p
    p

/-- Lines 129 and 155-161 of `mapper/characters.go`: the query text of `List`. -/
def listQuery (p : ListPlan) : String :=
  let query := "SELECT c.id, c.actor_id, c.name FROM characters c"
  let query := if p.joins.length > 0 then query ++ " " ++ strings.Join p.joins " " else query
  let query := if p.where_.length > 0 then query ++ " WHERE " ++ strings.Join p.where_ " AND " else query
  query

end Mapper

/-! ## builder: the squirrel select builder and `CharacterStore.List` -/

namespace Builder

/-- State of a `squirrel.SelectBuilder`: columns, the FROM item, the join clauses and the
WHERE parts, each part with the arguments bound to its placeholders. -/
structure SelectBuilder where
  columns : List String
  from_ : String
  joins : List String
  whereParts : List (String × List Value)
  deriving DecidableEq, Repr

/-- The call `squirrel.Select(columns...)`. -/
def Select (columns : List String) : SelectBuilder := ⟨columns, "", [], []⟩

/-- The method `SelectBuilder.From`. -/
def SelectBuilder.From (b : SelectBuilder) (table : String) : SelectBuilder :=
  ⟨b.columns, table, b.joins, b.whereParts⟩

/-- The method `SelectBuilder.Join`: appends the clause `"JOIN " + join`. -/
def SelectBuilder.Join (b : SelectBuilder) (join : String) : SelectBuilder :=
  ⟨b.columns, b.from_, b.joins ++ ["JOIN " ++ join], b.whereParts⟩

/-- The method `SelectBuilder.Where` with a string predicate and its arguments. -/
def SelectBuilder.Where (b : SelectBuilder) (pred : String) (args : List Value) : SelectBuilder :=
  ⟨b.columns, b.from_, b.joins, b.whereParts ++ [(pred, args)]⟩

/-- The method `SelectBuilder.ToSql` for the clauses used here: the statement text with `?`
placeholders and the arguments in placeholder order. -/
def SelectBuilder.ToSql (b : SelectBuilder) : String × List Value :=
  let sql := "SELECT " ++ strings.Join b.columns ", "
  let sql := if b.from_ ≠ "" then sql ++ " FROM " ++ b.from_ else sql
  let sql := if b.joins.length > 0 then sql ++ " " ++ strings.Join b.joins " " else sql
  let sql :=
    if b.whereParts.length > 0 then sql ++ " WHERE " ++ strings.Join (b.whereParts.map Prod.fst) " AND "
    else sql
  (sql, (b.whereParts.map Prod.snd).flatten)

/-- Lines 139-162 of `builder/characters.go`: the builder `q` that `List` runs. -/
def listBuilder (ToLower : String → String) (filters : Option CharacterFilters) : SelectBuilder :=
  let q := (Select ["c.id", "c.actor_id", "c.name"]).From "characters c"
  match filters with
  | none => q
  | some filters =>
    let q :=
      if filters.ActorID ≠ 0 then
        q.Where "actor_id = ?" [Value.int filters.ActorID]
      else if filters.ActorName ≠ "" then
        (q.Join "actors a ON a.id = c.actor_id").Where "LOWER(a.name) LIKE ?"
          [Value.str ("%" ++ ToLower filters.ActorName ++ "%")]
      else q
    let q :=
      if filters.Name ≠ "" then
        q.Where "LOWER(name) LIKE ?" [Value.str ("%" ++ ToLower filters.Name ++ "%")]
      else q
    let q :=
      if filters.SceneNumber ≠ 0 then
        (q.Join "scene_characters sc ON sc.character_id = c.id").Where "sc.scene_id = ?"
          [Value.int filters.SceneNumber]
      else q
    q

end Builder

/-! ## The backing store

The Go code talks to SQLite through `database/sql`. The engine below interprets exactly the
statements the four packages issue, over the three tables of the schema. A statement it
does not interpret is answered with a driver error. -/

/-- Row of `actors(id, name)`. -/
structure Actor where
  ID : Int
  Name : String
  deriving DecidableEq, Repr

/-- Row of `scene_characters(scene_id, character_id)`. -/
structure SceneCharacter where
  SceneID : Int
  CharacterID : Int
  deriving DecidableEq, Repr

/-- Connection `*sql.DB`: the three tables, the failure the connection surfaces for a call
(`none` when calls reach the engine: network loss, cancellation and constraint violations
are all of this kind), and the statements issued so far, oldest first. -/
structure DB where
  actors : List Actor
  characters : List Character
  scene_characters : List SceneCharacter
  fault : Option Error
  log : List (String × List Value)
  deriving DecidableEq, Repr

/-- SQL `LOWER` as SQLite implements it: ASCII letters are lowered, other characters kept. -/
def LOWER (s : String) : String := String.mk (s.data.map Char.toLower)

/-- SQL `LIKE` without an ESCAPE clause, pattern first: `%` matches any run of characters,
`_` any single character, every other character itself. Characters are compared exactly;
the queries here lower both operands before they reach `LIKE`. -/
def likeChars : List Char → List Char → Bool
  | [], t => t.isEmpty
  | p :: ps, t =>
    if p = '%' then t.tails.any (fun u => likeChars ps u)
    else
      match t with
      | [] => false
      | c :: u => (p = '_' || p = c) && likeChars ps u

/-- The operator `text LIKE pattern`. -/
def LIKE (text pattern : String) : Bool := likeChars pattern.data text.data

/-- Tables a select over `characters c` can join. -/
inductive JoinTable where
  | actors
  | scene_characters
  deriving DecidableEq, Repr

/-- Conditions of the WHERE clauses the packages build; `qualified` tells whether the
column is written with the alias `c.` or bare. -/
inductive Cond where
  | actorID (qualified : Bool)
  | actorName
  | name (qualified : Bool)
  | scene
  deriving DecidableEq, Repr

/-- Statement as the engine understands it. -/
inductive Stmt where
  | get (id : Int)
  | insert (actorID : Int) (name : String)
  | update (actorID : Int) (name : String) (id : Int)
  | delete (id : Int)
  | list (joins : List JoinTable) (conds : List (Cond × Value))
  deriving DecidableEq, Repr

/-- Remainder of `s` after the prefix `p`, when `s` starts with `p`. -/
def dropPrefix (p : String) (s : List Char) : Option (List Char) :=
  if p.data.isPrefixOf s then some (s.drop p.data.length) else none

/-- Join clauses at the head of `s`, each preceded by a blank, and what follows them. -/
def parseJoins : Nat → List Char → List JoinTable × List Char
  | 0, s => ([], s)
  | fuel + 1, s =>
    match dropPrefix " JOIN actors a ON a.id = c.actor_id" s with
    | some rest => ((parseJoins fuel rest).1.cons JoinTable.actors, (parseJoins fuel rest).2)
    | none =>
      match dropPrefix " JOIN scene_characters sc ON sc.character_id = c.id" s with
      | some rest =>
        ((parseJoins fuel rest).1.cons JoinTable.scene_characters, (parseJoins fuel rest).2)
      | none => ([], s)

/-- One condition at the head of `s` and what follows it. -/
def parseCond (s : List Char) : Option (Cond × List Char) :=
  match dropPrefix "c.actor_id = ?" s with
  | some rest => some (Cond.actorID true, rest)
  | none =>
  match dropPrefix "actor_id = ?" s with
  | some rest => some (Cond.actorID false, rest)
  | none =>
  match dropPrefix "LOWER(a.name) LIKE ?" s with
  | some rest => some (Cond.actorName, rest)
  | none =>
  match dropPrefix "LOWER(c.name) LIKE ?" s with
  | some rest => some (Cond.name true, rest)
  | none =>
  match dropPrefix "LOWER(name) LIKE ?" s with
  | some rest => some (Cond.name false, rest)
  | none =>
  match dropPrefix "sc.scene_id = ?" s with
  | some rest => some (Cond.scene, rest)
  | none => none

/-- Conditions separated by ` AND ` that make up the whole of `s`. -/
def parseConds : Nat → List Char → Option (List Cond)
  | 0, _ => none
  | fuel + 1, s =>
    match parseCond s with
    | none => none
    | some (c, []) => some [c]
    | some (c, r :: rest) =>
      match dropPrefix " AND " (r :: rest) with
      | some more => (parseConds fuel more).map (fun cs => c :: cs)
      | none => none

/-- Joins and conditions of a select of the three columns over `characters c`. -/
def parseSelect (query : String) : Option (List JoinTable × List Cond) :=
  match dropPrefix "SELECT c.id, c.actor_id, c.name FROM characters c" query.data with
  | none => none
  | some rest =>
    match (parseJoins rest.length rest).2 with
    | [] => some ((parseJoins rest.length rest).1, [])
    | r :: rs =>
      match dropPrefix " WHERE " (r :: rs) with
      | none => none
      | some w => (parseConds w.length w).map fun conds => ((parseJoins rest.length rest).1, conds)

/-- List statement for a select text and its arguments: one argument per placeholder,
bound in order. -/
def parseList (query : String) (args : List Value) : Option Stmt :=
  match parseSelect query with
  | none => none
  | some (joins, conds) =>
    if conds.length = args.length then some (Stmt.list joins (conds.zip args)) else none

/-- Statement text and bound arguments as understood by the engine. The placeholder styles
are those of the packages: `$n` (vanilla, mapper), `:name` bound by sqlx from the struct
fields in order of appearance (mapper), `?` (list queries). -/
def parse (query : String) (args : List Value) : Option Stmt :=
  if query = "SELECT id, actor_id, name FROM characters WHERE id = $1" then
    match args with
    | [Value.int id] => some (Stmt.get id)
    | _ => none
  else if query = "INSERT INTO characters (actor_id, name) VALUES ($1, $2) RETURNING id"
      ∨ query = "INSERT INTO characters (actor_id, name) VALUES (:actor_id, :name) RETURNING id" then
    match args with
    | [Value.int actorID, Value.str name] => some (Stmt.insert actorID name)
    | _ => none
  else if query = "UPDATE characters SET actor_id = $1, name = $2 WHERE id = $3"
      ∨ query = "UPDATE characters SET actor_id = :actor_id, name = :name WHERE id = :id" then
    match args with
    | [Value.int actorID, Value.str name, Value.int id] => some (Stmt.update actorID name id)
    | _ => none
  else if query = "DELETE FROM characters WHERE id = $1" then
    match args with
    | [Value.int id] => some (Stmt.delete id)
    | _ => none
  else parseList query args

/-- Row of the product `characters c [JOIN actors a] [JOIN scene_characters sc]`. -/
structure JoinedRow where
  c : Character
  a : Option Actor
  sc : Option SceneCharacter
  deriving DecidableEq, Repr

/-- Rows of `characters c` with the inner joins `a.id = c.actor_id` and
`sc.character_id = c.id`, for those of the two tables that are joined. -/
def joinedRows (db : DB) (joins : List JoinTable) : List JoinedRow :=
  db.characters.flatMap fun c =>
    (if JoinTable.actors ∈ joins then
        (db.actors.filter fun a => a.ID = c.ActorID).map some else [none]).flatMap fun a =>
    (if JoinTable.scene_characters ∈ joins then
        (db.scene_characters.filter fun sc => sc.CharacterID = c.ID).map some
      else [none]).map fun sc => JoinedRow.mk c a sc

/-- Name resolution when the statement is prepared: no table is joined twice, an aliased
column needs its table in the FROM list, a bare `name` is ambiguous once `actors` is
joined, and each argument has the type of its column. -/
def prepares (joins : List JoinTable) (conds : List (Cond × Value)) : Bool :=
  decide joins.Nodup && conds.all fun ca =>
    match ca with
    | (Cond.actorID _, Value.int _) => true
    | (Cond.actorName, Value.str _) => decide (JoinTable.actors ∈ joins)
    | (Cond.name true, Value.str _) => true
    | (Cond.name false, Value.str _) => decide (JoinTable.actors ∉ joins)
    | (Cond.scene, Value.int _) => decide (JoinTable.scene_characters ∈ joins)
    | _ => false

/-- Truth of one bound condition on a joined row. -/
def holds (r : JoinedRow) : Cond × Value → Bool
  | (Cond.actorID _, Value.int v) => decide (r.c.ActorID = v)
  | (Cond.actorName, Value.str p) =>
    match r.a with
    | some a => LIKE (LOWER a.Name) p
    | none => false
  | (Cond.name _, Value.str p) => LIKE (LOWER r.c.Name) p
  | (Cond.scene, Value.int v) =>
    match r.sc with
    | some sc => decide (sc.SceneID = v)
    | none => false
  | _ => false

/-- The three selected columns of a character row. -/
def Character.row (c : Character) : List Value :=
  [Value.int c.ID, Value.int c.ActorID, Value.str c.Name]

/-- Key SQLite gives an inserted row whose `id` is not supplied: 1 in an empty table,
otherwise one more than the largest key in use. This is SQLite's rule while the largest
key is below the largest `int64`, 9223372036854775807; at that key SQLite tries unused
keys at random instead, which this function does not describe. -/
def nextID : List Character → Int
  | [] => 1
  | c :: cs => (cs.foldl (fun m x => max m x.ID) c.ID) + 1

/-- Outcome of one call on the connection: the error, the result rows, the number of rows
changed. -/
structure Result where
  err : Option Error
  rows : List (List Value)
  rowsAffected : Nat
  deriving DecidableEq, Repr

/-- Effect of an interpreted statement on the tables, with its result. -/
def DB.run (db : DB) : Stmt → Result × DB
  | Stmt.get id =>
    (⟨none, (db.characters.filter fun c => c.ID = id).map Character.row, 0⟩, db)
  | Stmt.insert actorID name =>
    (⟨none, [[Value.int (nextID db.characters)]], 1⟩,
     { db with characters := db.characters ++ [⟨nextID db.characters, actorID, name⟩] })
  | Stmt.update actorID name id =>
    (⟨none, [], (db.characters.filter fun c => c.ID = id).length⟩,
     { db with characters :=
        db.characters.map fun c => if c.ID = id then ⟨c.ID, actorID, name⟩ else c })
  | Stmt.delete id =>
    (⟨none, [], (db.characters.filter fun c => c.ID = id).length⟩,
     { db with characters := db.characters.filter fun c => ¬ c.ID = id })
  | Stmt.list joins conds =>
    if prepares joins conds then
      (⟨none, ((joinedRows db joins).filter fun r => conds.all (holds r)).map
          fun r => r.c.row, 0⟩, db)
    else (⟨some (Error.driver "prepare"), [], 0⟩, db)

/-- One round trip: the statement is logged; a faulty connection surfaces its failure and
leaves the tables alone; otherwise the engine runs the statement. -/
def DB.roundTrip (db : DB) (query : String) (args : List Value) : Result × DB :=
  let db := { db with log := db.log ++ [(query, args)] }
  match db.fault with
  | some e => (⟨some e, [], 0⟩, db)
  | none =>
    match parse query args with
    | none => (⟨some (Error.driver "syntax"), [], 0⟩, db)
    | some stmt => db.run stmt

/-- The method `(*sql.DB).ExecContext`: the result (here its `RowsAffected`) and the error. -/
def DB.ExecContext (db : DB) (query : String) (args : List Value) :
    (Nat × Option Error) × DB :=
  (((db.roundTrip query args).1.rowsAffected, (db.roundTrip query args).1.err),
   (db.roundTrip query args).2)

/-- The method `(*sql.DB).QueryContext`: the result rows and the error. -/
def DB.QueryContext (db : DB) (query : String) (args : List Value) :
    (List (List Value) × Option Error) × DB :=
  (((db.roundTrip query args).1.rows, (db.roundTrip query args).1.err),
   (db.roundTrip query args).2)

/-- A `*sql.Row`: the deferred error of the query and its rows. -/
structure Row where
  err : Option Error
  rows : List (List Value)
  deriving DecidableEq, Repr

/-- The method `(*sql.DB).QueryRowContext`. -/
def DB.QueryRowContext (db : DB) (query : String) (args : List Value) : Row × DB :=
  (⟨(db.roundTrip query args).1.err, (db.roundTrip query args).1.rows⟩,
   (db.roundTrip query args).2)

/-- Scan of one column into an `*int64` destination. -/
def scanInt (v : Value) (dest : Int) : Int × Option Error :=
  match v with
  | Value.int i => (i, none)
  | Value.str _ => (dest, some Error.scan)

/-- Scan of one column into a `*string` destination. -/
def scanString (v : Value) (dest : String) : String × Option Error :=
  match v with
  | Value.str s => (s, none)
  | Value.int _ => (dest, some Error.scan)

/-- The call `rows.Scan(&c.ID, &c.ActorID, &c.Name)` on one row: columns are assigned
left to right until one fails. -/
def scanCharacter (row : List Value) (c : Character) : Character × Option Error :=
  match row with
  | [v1, v2, v3] =>
    match scanInt v1 c.ID with
    | (_, some e) => (c, some e)
    | (id, none) =>
      match scanInt v2 c.ActorID with
      | (_, some e) => ({ c with ID := id }, some e)
      | (actorID, none) =>
        match scanString v3 c.Name with
        | (_, some e) => ({ c with ID := id, ActorID := actorID }, some e)
        | (name, none) => (⟨id, actorID, name⟩, none)
  | _ => (c, some Error.scan)

/-- The call `rows.Scan(&c.ID)` on one row. -/
def scanID (row : List Value) (c : Character) : Character × Option Error :=
  match row with
  | [v1] =>
    match scanInt v1 c.ID with
    | (_, some e) => (c, some e)
    | (id, none) => ({ c with ID := id }, none)
  | _ => (c, some Error.scan)

/-- The method `(*sql.Row).Scan`: the deferred error, `sql.ErrNoRows` when there is no
row, otherwise the scan of the first row. -/
def Row.Scan (r : Row) (scan : List Value → Character → Character × Option Error)
    (c : Character) : Character × Option Error :=
  match r.err with
  | some e => (c, some e)
  | none =>
    match r.rows with
    | [] => (c, some Error.ErrNoRows)
    | row :: _ => scan row c

/-- Go `errors.Is(err, target)` on a possibly nil error. -/
def errors.Is (err : Option Error) (target : Error) : Bool :=
  match err with
  | none => false
  | some e => e.Is target

/-- A slice of characters (`[]*Character` or `[]Character`). -/
abbrev Characters := List Character

/-- The row loop of `List`: every row is scanned into a fresh `Character` and appended;
a scan failure abandons the slice and returns the wrapped error. -/
def scanRows : List (List Value) → Characters → Characters × Option Error
  | [], characters => (characters, none)
  | row :: rows, characters =>
    match scanCharacter row ⟨0, 0, ""⟩ with
    | (_, some err) => ([], some (Error.wrap "list characters" err))
    | (c, none) => scanRows rows (characters ++ [c])

/-! ## vanilla: `CharacterStore` -/

namespace Vanilla

/-- The method `CharacterStore.Get` (lines 35-45). -/
def CharacterStore.Get (cs : DB) (id : Int) : (Option Character × Option Error) × DB :=
  let row := cs.QueryRowContext "SELECT id, actor_id, name FROM characters WHERE id = $1"
    [Value.int id]
  let scanned := row.1.Scan scanCharacter ⟨0, 0, ""⟩
  if errors.Is scanned.2 Error.ErrNoRows then ((none, none), row.2)
  else ((some scanned.1, scanned.2), row.2)

/-- The method `CharacterStore.insert` (lines 60-63); the character is returned as
the call leaves it. -/
def CharacterStore.insert (cs : DB) (c : Character) : (Character × Option Error) × DB :=
  let row := cs.QueryRowContext
    "INSERT INTO characters (actor_id, name) VALUES ($1, $2) RETURNING id"
    [Value.int c.ActorID, Value.str c.Name]
  (row.1.Scan scanID c, row.2)

/-- The method `CharacterStore.update` (lines 65-77). -/
def CharacterStore.update (cs : DB) (c : Character) : Option Error × DB :=
  let res := cs.ExecContext "UPDATE characters SET actor_id = $1, name = $2 WHERE id = $3"
    [Value.int c.ActorID, Value.str c.Name, Value.int c.ID]
  match res.1.2 with
  | some err => (some (Error.wrap "update character" err), res.2)
  | none =>
    if res.1.1 = 0 then (some Error.ErrNotFound, res.2)
    else (none, res.2)

/-- The method `CharacterStore.Store` (lines 52-58); the character is returned as the
call leaves it. -/
def CharacterStore.Store (cs : DB) (c : Character) : (Character × Option Error) × DB :=
  if c.ID = 0 then CharacterStore.insert cs c
  else ((c, (CharacterStore.update cs c).1), (CharacterStore.update cs c).2)

/-- The method `CharacterStore.Delete` (lines 82-94). -/
def CharacterStore.Delete (cs : DB) (id : Int) : Option Error × DB :=
  let res := cs.ExecContext "DELETE FROM characters WHERE id = $1" [Value.int id]
  match res.1.2 with
  | some err => (some (Error.wrap "delete character" err), res.2)
  | none =>
    if res.1.1 = 0 then (some Error.ErrNotFound, res.2)
    else (none, res.2)

/-- The method `CharacterStore.List` (lines 115-169). -/
def CharacterStore.List (ToLower : String → String) (cs : DB)
    (filters : Option CharacterFilters) : (Characters × Option Error) × DB :=
  let p := listPlan ToLower filters
  let rows := cs.QueryContext (listQuery p) p.args
  match rows.1.2 with
  | some err => (([], some (Error.wrap "list characters" err)), rows.2)
  | none => (scanRows rows.1.1 [], rows.2)

end Vanilla

/-! ## mapper: `CharacterStore` -/

namespace Mapper

/-- The method `CharacterStore.Get` (lines 37-45); `sqlx.GetContext` scans the first row
into the struct by column name and reports `sql.ErrNoRows` when there is none. -/
def CharacterStore.Get (cs : DB) (id : Int) : (Option Character × Option Error) × DB :=
  let row := cs.QueryRowContext "SELECT id, actor_id, name FROM characters WHERE id = $1"
    [Value.int id]
  let scanned := row.1.Scan scanCharacter ⟨0, 0, ""⟩
  if errors.Is scanned.2 Error.ErrNoRows then ((none, none), row.2)
  else ((some scanned.1, scanned.2), row.2)

/-- The loop `for rows.Next()` of `insert` (lines 67-72). -/
def insertRows : List (List Value) → Character → Character × Option Error
  | [], c => (c, none)
  | row :: rows, c =>
    match scanID row c with
    | (c, some err) => (c, some (Error.wrap "insert character" err))
    | (c, none) => insertRows rows c

/-- The method `CharacterStore.insert` (lines 60-75). -/
def CharacterStore.insert (cs : DB) (c : Character) : (Character × Option Error) × DB :=
  let rows := cs.QueryContext
    "INSERT INTO characters (actor_id, name) VALUES (:actor_id, :name) RETURNING id"
    [Value.int c.ActorID, Value.str c.Name]
  match rows.1.2 with
  | some err => ((c, some (Error.wrap "insert character" err)), rows.2)
  | none => (insertRows rows.1.1 c, rows.2)

/-- The method `CharacterStore.update` (lines 77-89). -/
def CharacterStore.update (cs : DB) (c : Character) : Option Error × DB :=
  let res := cs.ExecContext
    "UPDATE characters SET actor_id = :actor_id, name = :name WHERE id = :id"
    [Value.int c.ActorID, Value.str c.Name, Value.int c.ID]
  match res.1.2 with
  | some err => (some (Error.wrap "update character" err), res.2)
  | none =>
    if res.1.1 = 0 then (some Error.ErrNotFound, res.2)
    else (none, res.2)

/-- The method `CharacterStore.Store` (lines 52-58). -/
def CharacterStore.Store (cs : DB) (c : Character) : (Character × Option Error) × DB :=
  if c.ID = 0 then CharacterStore.insert cs c
  else ((c, (CharacterStore.update cs c).1), (CharacterStore.update cs c).2)

/-- The method `CharacterStore.Delete` (lines 94-106). -/
def CharacterStore.Delete (cs : DB) (id : Int) : Option Error × DB :=
  let res := cs.ExecContext "DELETE FROM characters WHERE id = $1" [Value.int id]
  match res.1.2 with
  | some err => (some (Error.wrap "delete character" err), res.2)
  | none =>
    if res.1.1 = 0 then (some Error.ErrNotFound, res.2)
    else (none, res.2)

/-- The row scan of `sqlx.SelectContext`: every row is scanned into a fresh struct and
appended to the destination slice; the first scan failure is returned as it is. -/
def selectRows : List (List Value) → Characters → Characters × Option Error
  | [], characters => (characters, none)
  | row :: rows, characters =>
    match scanCharacter row ⟨0, 0, ""⟩ with
    | (_, some err) => (characters, some err)
    | (c, none) => selectRows rows (characters ++ [c])

/-- The method `CharacterStore.List` (lines 127-170). -/
def CharacterStore.List (ToLower : String → String) (cs : DB)
    (filters : Option CharacterFilters) : (Characters × Option Error) × DB :=
  let p := listPlan ToLower filters
  let rows := cs.QueryContext (listQuery p) p.args
  match rows.1.2 with
  | some err => (([], some (Error.wrap "list characters" err)), rows.2)
  | none =>
    match (selectRows rows.1.1 []).2 with
    | some err => (([], some (Error.wrap "list characters" err)), rows.2)
    | none => (((selectRows rows.1.1 []).1, none), rows.2)

end Mapper

namespace Builder

/-- The method `CharacterStore.List` (lines 138-182): the builder is rendered and run on
the connection. -/
def CharacterStore.List (ToLower : String → String) (cs : DB)
    (filters : Option CharacterFilters) : (Characters × Option Error) × DB :=
  let q := listBuilder ToLower filters
  let rows := cs.QueryContext q.ToSql.1 q.ToSql.2
  match rows.1.2 with
  | some err => (([], some (Error.wrap "list characters" err)), rows.2)
  | none => (scanRows rows.1.1 [], rows.2)

end Builder

/-! ## sqlc: `Queries` -/

namespace Sqlc

/-- Result of a Go call that may panic instead of returning. -/
inductive Outcome (α : Type) where
  | panic (msg : String)
  | returns (value : α)
  deriving DecidableEq, Repr

/-- Parameters of the generated `insertCharacter`. -/
structure insertCharacterParams where
  ActorID : Int
  Name : String
  deriving DecidableEq, Repr

/-- Parameters of the generated `updateCharacter`. -/
structure updateCharacterParams where
  ID : Int
  ActorID : Int
  Name : String
  deriving DecidableEq, Repr

/-- The query methods that sqlc generates, with the signatures their call sites in
`sqlc/characters.go` give them. The generated file is not part of the sources, so the
methods are parameters; `σ` is the state of the connection they run on. -/
structure Queries (σ : Type) where
  insertCharacter : σ → insertCharacterParams → (Int × Option Error) × σ
  updateCharacter : σ → updateCharacterParams → Option Error × σ
  listCharactersByActor : σ → Int → (Characters × Option Error) × σ
  listCharactersByActorName : σ → String → (Characters × Option Error) × σ
  listCharactersByName : σ → String → (Characters × Option Error) × σ
  listCharactersByScene : σ → Int → (Characters × Option Error) × σ
  listAllCharacters : σ → (Characters × Option Error) × σ

/-- The method `Queries.StoreCharacter` (lines 10-29); the character is returned as the
call leaves it. -/
def Queries.StoreCharacter {σ : Type} (q : Queries σ) (s : σ) (c : Character) :
    (Character × Option Error) × σ :=
  if c.ID = 0 then
    match (q.insertCharacter s ⟨c.ActorID, c.Name⟩).1.2 with
    | some err => ((c, some err), (q.insertCharacter s ⟨c.ActorID, c.Name⟩).2)
    | none =>
      (({ c with ID := (q.insertCharacter s ⟨c.ActorID, c.Name⟩).1.1 }, none),
       (q.insertCharacter s ⟨c.ActorID, c.Name⟩).2)
  else
    ((c, (q.updateCharacter s ⟨c.ID, c.ActorID, c.Name⟩).1),
     (q.updateCharacter s ⟨c.ID, c.ActorID, c.Name⟩).2)

/-- Generated list query chosen by `ListCharacters`, with its argument. -/
inductive ListCall where
  | listCharactersByActor (actorID : Int)
  | listCharactersByActorName (actorName : String)
  | listCharactersByName (name : String)
  | listCharactersByScene (sceneNumber : Int)
  | listAllCharacters
  deriving DecidableEq, Repr

/-- The `switch` of `Queries.ListCharacters` (lines 52-63). The first case reads
`filters.ActorID`, which panics on a nil `filters`. -/
def ListCharacters.switch (filters : Option CharacterFilters) : Outcome ListCall :=
  match filters with
  | none => Outcome.panic "runtime error: invalid memory address or nil pointer dereference"
  | some filters =>
    if filters.ActorID ≠ 0 then
      Outcome.returns (ListCall.listCharactersByActor filters.ActorID)
    else if filters.ActorName ≠ "" then
      Outcome.returns (ListCall.listCharactersByActorName filters.ActorName)
    else if filters.Name ≠ "" then
      Outcome.returns (ListCall.listCharactersByName filters.Name)
    else if filters.SceneNumber ≠ 0 then
      Outcome.returns (ListCall.listCharactersByScene filters.SceneNumber)
    else Outcome.returns ListCall.listAllCharacters

/-- The generated query a `ListCall` stands for, run on the connection. -/
def Queries.run {σ : Type} (q : Queries σ) (s : σ) :
    ListCall → (Characters × Option Error) × σ
  | ListCall.listCharactersByActor actorID => q.listCharactersByActor s actorID
  | ListCall.listCharactersByActorName actorName => q.listCharactersByActorName s actorName
  | ListCall.listCharactersByName name => q.listCharactersByName s name
  | ListCall.listCharactersByScene sceneNumber => q.listCharactersByScene s sceneNumber
  | ListCall.listAllCharacters => q.listAllCharacters s

/-- The method `Queries.ListCharacters` (lines 51-64). -/
def Queries.ListCharacters {σ : Type} (q : Queries σ) (s : σ)
    (filters : Option CharacterFilters) : Outcome ((Characters × Option Error) × σ) :=
  match ListCharacters.switch filters with
  | Outcome.panic msg => Outcome.panic msg
  | Outcome.returns call => Outcome.returns (q.run s call)

/-- Modelled from the spec: the generated list queries (`sqlc/query.sql.go`) are not part
of the sources. By steps 2 to 5 of the filter composition each restricts on one filter
field, and the unfiltered one on none; the restriction is written here as the WHERE
fragment `vanilla` uses for the same field. -/
def ListCall.where_ : ListCall → List String
  | ListCall.listCharactersByActor _ => ["c.actor_id = ?"]
  | ListCall.listCharactersByActorName _ => ["LOWER(a.name) LIKE ?"]
  | ListCall.listCharactersByName _ => ["LOWER(c.name) LIKE ?"]
  | ListCall.listCharactersByScene _ => ["sc.scene_id = ?"]
  | ListCall.listAllCharacters => []

/-- Call of a generated query method, as recorded by `Queries.traced`. -/
inductive Call where
  | insertCharacter (arg : insertCharacterParams)
  | updateCharacter (arg : updateCharacterParams)
  | list (call : ListCall)
  deriving DecidableEq, Repr

/-- The same query methods, recording every call next to the connection state. -/
def Queries.traced {σ : Type} (q : Queries σ) : Queries (σ × List Call) where
  insertCharacter := fun s arg =>
    ((q.insertCharacter s.1 arg).1,
     ((q.insertCharacter s.1 arg).2, s.2 ++ [Call.insertCharacter arg]))
  updateCharacter := fun s arg =>
    ((q.updateCharacter s.1 arg).1,
     ((q.updateCharacter s.1 arg).2, s.2 ++ [Call.updateCharacter arg]))
  listCharactersByActor := fun s a =>
    ((q.listCharactersByActor s.1 a).1,
     ((q.listCharactersByActor s.1 a).2, s.2 ++ [Call.list (ListCall.listCharactersByActor a)]))
  listCharactersByActorName := fun s a =>
    ((q.listCharactersByActorName s.1 a).1,
     ((q.listCharactersByActorName s.1 a).2,
      s.2 ++ [Call.list (ListCall.listCharactersByActorName a)]))
  listCharactersByName := fun s a =>
    ((q.listCharactersByName s.1 a).1,
     ((q.listCharactersByName s.1 a).2, s.2 ++ [Call.list (ListCall.listCharactersByName a)]))
  listCharactersByScene := fun s a =>
    ((q.listCharactersByScene s.1 a).1,
     ((q.listCharactersByScene s.1 a).2, s.2 ++ [Call.list (ListCall.listCharactersByScene a)]))
  listAllCharacters := fun s =>
    ((q.listAllCharacters s.1).1,
     ((q.listAllCharacters s.1).2, s.2 ++ [Call.list ListCall.listAllCharacters]))

/-- Query methods with fixed answers on a connection without state, for running the sqlc
code on concrete inputs: an insert answers `(id, err)`, an update `err`, a list query the
given characters. -/
def Queries.answering (id : Int) (err : Option Error) (characters : Characters) :
    Queries Unit where
  insertCharacter := fun s _ => ((id, err), s)
  updateCharacter := fun s _ => (err, s)
  listCharactersByActor := fun s _ => ((characters, err), s)
  listCharactersByActorName := fun s _ => ((characters, err), s)
  listCharactersByName := fun s _ => ((characters, err), s)
  listCharactersByScene := fun s _ => ((characters, err), s)
  listAllCharacters := fun s => ((characters, err), s)

end Sqlc

/-! ## Specification-side definitions and concrete inputs -/

/-- Active predicates of a filter with their arguments, as the specification lists them:
the actor predicate (`actor_id` if set, else `actor_name` if set), then the name
predicate, then the scene predicate. -/
def activePredicates (ToLower : String → String) (f : CharacterFilters) :
    List (String × Value) :=
  (if f.ActorID ≠ 0 then [("c.actor_id = ?", Value.int f.ActorID)]
   else if f.ActorName ≠ "" then
     [("LOWER(a.name) LIKE ?", Value.str ("%" ++ ToLower f.ActorName ++ "%"))]
   else [])
  ++ (if f.Name ≠ "" then [("LOWER(c.name) LIKE ?", Value.str ("%" ++ ToLower f.Name ++ "%"))]
      else [])
  ++ (if f.SceneNumber ≠ 0 then [("sc.scene_id = ?", Value.int f.SceneNumber)] else [])

/-- Go `strings.ToLower` on ASCII text, where it lowers the letters A to Z and keeps every
other character; used to run the code on concrete ASCII inputs. -/
def ToLowerASCII (s : String) : String := String.mk (s.data.map Char.toLower)

/-- A small store for running the code on concrete inputs: one actor, two characters,
one scene membership, a connection without fault and an empty log. -/
def fixture : DB :=
  ⟨[⟨1, "Graham Chapman"⟩], [⟨1, 1, "King Arthur"⟩, ⟨2, 1, "Brian"⟩], [⟨3, 1⟩], none, []⟩

/-- The fixture store behind a connection that fails every call with a driver error. -/
def faulty : DB := { fixture with fault := some (Error.driver "connection refused") }

/-- A store whose only character carries the id -1, on a connection without fault. -/
def negativeIDs : DB :=
  ⟨[⟨1, "Graham Chapman"⟩], [⟨-1, 1, "Patsy"⟩], [], none, []⟩

/-! ## Column resolution -/

/-- Table of the schema. -/
inductive Table where
  | characters
  | actors
  | scene_characters
  deriving DecidableEq, Repr

/-- Modelled from the spec: the schema file loaded by `common/db.go` is not part of the
sources. Section 6 of the specification gives the columns: `characters(id, actor_id,
name)`, `actors(id, name)`, `scene_characters(scene_id, character_id)`. -/
def Table.columns : Table → List String
  | Table.characters => ["id", "actor_id", "name"]
  | Table.actors => ["id", "name"]
  | Table.scene_characters => ["scene_id", "character_id"]

/-- Alias under which the list queries bring a table into the FROM list: `characters c`,
`actors a`, `scene_characters sc`. -/
def Table.alias : Table → String
  | Table.characters => "c"
  | Table.actors => "a"
  | Table.scene_characters => "sc"

/-- Table a join clause brings in. -/
def JoinTable.table : JoinTable → Table
  | JoinTable.actors => Table.actors
  | JoinTable.scene_characters => Table.scene_characters

/-- Column reference as a predicate writes it: the alias in front of the dot, if any, and
the column name. -/
structure ColumnRef where
  qualifier : Option String
  column : String
  deriving DecidableEq, Repr

/-- Column a condition refers to. -/
def Cond.column : Cond → ColumnRef
  | Cond.actorID true => ⟨some "c", "actor_id"⟩
  | Cond.actorID false => ⟨none, "actor_id"⟩
  | Cond.actorName => ⟨some "a", "name"⟩
  | Cond.name true => ⟨some "c", "name"⟩
  | Cond.name false => ⟨none, "name"⟩
  | Cond.scene => ⟨some "sc", "scene_id"⟩

/-- Tables of a FROM list in which a column reference resolves: those that have the
column and, for a qualified reference, carry the alias. -/
def resolve (tables : List Table) (ref : ColumnRef) : List Table :=
  tables.filter fun t =>
    (match ref.qualifier with
      | some q => decide (t.alias = q)
      | none => true) && decide (ref.column ∈ t.columns)

/-- Tables in the FROM and JOIN clauses of a list query. -/
def fromList (query : String) : Option (List Table) :=
  (parseSelect query).map fun p => Table.characters :: p.1.map JoinTable.table

/-- Column references of the predicates of a list query, in order. -/
def predicateColumns (query : String) : Option (List ColumnRef) :=
  (parseSelect query).map fun p => p.2.map Cond.column

/-- Whether every column the predicates of a list query refer to resolves in exactly one
table of its FROM and JOIN clauses. -/
def resolvesUniquely (query : String) : Bool :=
  match parseSelect query with
  | none => false
  | some (joins, conds) =>
    conds.all fun cond =>
      decide ((resolve (Table.characters :: joins.map JoinTable.table) cond.column).length = 1)

/-- Whether the argument bound to a condition has the type of its column. -/
def Cond.typed : Cond × Value → Bool
  | (Cond.actorID _, Value.int _) => true
  | (Cond.actorName, Value.str _) => true
  | (Cond.name _, Value.str _) => true
  | (Cond.scene, Value.int _) => true
  | _ => false

/-! ## Theorems -/

/-! ### Helper lemmas -/

/-- The two query builders of `vanilla` and `mapper` are the same function. -/
theorem mapper_listPlan_eq (ToLower : String → String) (filters : Option CharacterFilters) :
    Mapper.listPlan ToLower filters = Vanilla.listPlan ToLower filters := rfl

/-- The two query texts of `vanilla` and `mapper` are the same function. -/
theorem mapper_listQuery_eq (p : ListPlan) : Mapper.listQuery p = Vanilla.listQuery p := rfl

/-- With `actor_id` set the plan does not depend on `actor_name`. -/
theorem vanilla_listPlan_actorID (ToLower : String → String) (f : CharacterFilters) (s : String)
    (h : f.ActorID ≠ 0) :
    Vanilla.listPlan ToLower (some { f with ActorName := s })
      = Vanilla.listPlan ToLower (some { f with ActorName := "" }) := by
  simp [Vanilla.listPlan, h]

set_option maxRecDepth 20000 in
/-- With `actor_id` set the query text mentions neither the actors table nor its name
column. -/
theorem vanilla_listQuery_actorID (ToLower : String → String) (f : CharacterFilters)
    (h : f.ActorID ≠ 0) :
    ¬ "actors".data <:+: (Vanilla.listQuery (Vanilla.listPlan ToLower (some f))).data
    ∧ ¬ "a.name".data <:+: (Vanilla.listQuery (Vanilla.listPlan ToLower (some f))).data := by
  by_cases hn : f.Name = "" <;> by_cases hs : f.SceneNumber = 0 <;>
    simp [Vanilla.listPlan, Vanilla.listQuery, strings.Join, h, hn, hs] <;> decide

/-! ### C1 -/

/-- C1: in `List` of `vanilla` and `mapper`, a filter with `ActorID` set builds the same
plan (joins, predicates, arguments) and the same query text whatever its `ActorName`;
the plan holds neither the join to actors nor the actor-name predicate, the text names
neither the actors table nor `a.name`, and on every connection the two calls of `List`
have the same outcome. -/
theorem C1_actor_id_precedence (ToLower : String → String) (f : CharacterFilters) (s : String)
    (h : f.ActorID ≠ 0) :
    (Vanilla.listPlan ToLower (some { f with ActorName := s })
        = Vanilla.listPlan ToLower (some { f with ActorName := "" })
      ∧ Mapper.listPlan ToLower (some { f with ActorName := s })
        = Mapper.listPlan ToLower (some { f with ActorName := "" }))
    ∧ (Vanilla.listQuery (Vanilla.listPlan ToLower (some { f with ActorName := s }))
        = Vanilla.listQuery (Vanilla.listPlan ToLower (some { f with ActorName := "" }))
      ∧ Mapper.listQuery (Mapper.listPlan ToLower (some { f with ActorName := s }))
        = Mapper.listQuery (Mapper.listPlan ToLower (some { f with ActorName := "" })))
    ∧ ("JOIN actors a ON a.id = c.actor_id"
          ∉ (Vanilla.listPlan ToLower (some { f with ActorName := s })).joins
      ∧ "LOWER(a.name) LIKE ?"
          ∉ (Vanilla.listPlan ToLower (some { f with ActorName := s })).where_
      ∧ "JOIN actors a ON a.id = c.actor_id"
          ∉ (Mapper.listPlan ToLower (some { f with ActorName := s })).joins
      ∧ "LOWER(a.name) LIKE ?"
          ∉ (Mapper.listPlan ToLower (some { f with ActorName := s })).where_)
    ∧ (¬ "actors".data <:+:
          (Vanilla.listQuery (Vanilla.listPlan ToLower (some { f with ActorName := s }))).data
      ∧ ¬ "a.name".data <:+:
          (Vanilla.listQuery (Vanilla.listPlan ToLower (some { f with ActorName := s }))).data
      ∧ ¬ "actors".data <:+:
          (Mapper.listQuery (Mapper.listPlan ToLower (some { f with ActorName := s }))).data
      ∧ ¬ "a.name".data <:+:
          (Mapper.listQuery (Mapper.listPlan ToLower (some { f with ActorName := s }))).data)
    ∧ ∀ db : DB,
        Vanilla.CharacterStore.List ToLower db (some { f with ActorName := s })
          = Vanilla.CharacterStore.List ToLower db (some { f with ActorName := "" })
        ∧ Mapper.CharacterStore.List ToLower db (some { f with ActorName := s })
          = Mapper.CharacterStore.List ToLower db (some { f with ActorName := "" }) := by
  have hp := vanilla_listPlan_actorID ToLower f s h
  have hq := vanilla_listQuery_actorID ToLower { f with ActorName := s } h
  refine ⟨⟨hp, ?_⟩, ⟨by rw [hp], ?_⟩, ?_, ⟨hq.1, hq.2, ?_, ?_⟩, ?_⟩
  · simpa [mapper_listPlan_eq] using hp
  · simp only [mapper_listPlan_eq, mapper_listQuery_eq]; rw [hp]
  · by_cases hn : f.Name = "" <;> by_cases hs : f.SceneNumber = 0 <;>
      simp [mapper_listPlan_eq, Vanilla.listPlan, h, hn, hs]
  · simpa only [mapper_listPlan_eq, mapper_listQuery_eq] using hq.1
  · simpa only [mapper_listPlan_eq, mapper_listQuery_eq] using hq.2
  · intro db
    constructor
    · simp only [Vanilla.CharacterStore.List]; rw [hp]
    · simp only [Mapper.CharacterStore.List, mapper_listPlan_eq]; rw [hp]

/-- Witness of C1 on the precedence test: `actor_id` 3 with `actor_name` X. -/
theorem C1_actor_id_precedence_witness :
    (3 : Int) ≠ 0
    ∧ Vanilla.listQuery (Vanilla.listPlan id (some { (⟨3, "", "", 0⟩ : CharacterFilters) with ActorName := "X" }))
        = Vanilla.listQuery (Vanilla.listPlan id (some { (⟨3, "", "", 0⟩ : CharacterFilters) with ActorName := "" })) :=
  ⟨by decide, (C1_actor_id_precedence id ⟨3, "", "", 0⟩ "X" (by decide)).2.1.1⟩

/-! ### C2 -/

set_option maxRecDepth 20000 in
/-- The plan of `vanilla` holds the active predicates and their arguments, in order, and
the query text is the text without predicates followed by the WHERE clause. -/
theorem vanilla_listPlan_predicates (ToLower : String → String) (f : CharacterFilters) :
    (Vanilla.listPlan ToLower (some f)).where_ = (activePredicates ToLower f).map Prod.fst
    ∧ (Vanilla.listPlan ToLower (some f)).args = (activePredicates ToLower f).map Prod.snd
    ∧ Vanilla.listQuery (Vanilla.listPlan ToLower (some f))
        = Vanilla.listQuery ⟨(Vanilla.listPlan ToLower (some f)).joins, [], []⟩
          ++ (if activePredicates ToLower f = [] then ""
              else " WHERE " ++ strings.Join ((activePredicates ToLower f).map Prod.fst) " AND ")
    ∧ ¬ "WHERE".data <:+:
        (Vanilla.listQuery ⟨(Vanilla.listPlan ToLower (some f)).joins, [], []⟩).data := by
  by_cases ha : f.ActorID = 0 <;> by_cases han : f.ActorName = "" <;>
    by_cases hn : f.Name = "" <;> by_cases hs : f.SceneNumber = 0 <;>
    simp [Vanilla.listPlan, Vanilla.listQuery, activePredicates, strings.Join,
      ha, han, hn, hs] <;> decide

/-- C2: in `List` of `vanilla` and `mapper`, for a non-nil filter the predicates of the
plan are exactly the active predicates in the order actor, name, scene, the arguments
are theirs in the same order, and the query text is the select with its joins (which
holds no WHERE) followed by nothing when no predicate is active and otherwise by
` WHERE ` and the predicates joined by ` AND `. -/
theorem C2_and_composition (ToLower : String → String) (f : CharacterFilters) :
    ((Vanilla.listPlan ToLower (some f)).where_ = (activePredicates ToLower f).map Prod.fst
      ∧ (Vanilla.listPlan ToLower (some f)).args = (activePredicates ToLower f).map Prod.snd
      ∧ Vanilla.listQuery (Vanilla.listPlan ToLower (some f))
          = Vanilla.listQuery ⟨(Vanilla.listPlan ToLower (some f)).joins, [], []⟩
            ++ (if activePredicates ToLower f = [] then ""
                else " WHERE "
                  ++ strings.Join ((activePredicates ToLower f).map Prod.fst) " AND ")
      ∧ ¬ "WHERE".data <:+:
          (Vanilla.listQuery ⟨(Vanilla.listPlan ToLower (some f)).joins, [], []⟩).data)
    ∧ ((Mapper.listPlan ToLower (some f)).where_ = (activePredicates ToLower f).map Prod.fst
      ∧ (Mapper.listPlan ToLower (some f)).args = (activePredicates ToLower f).map Prod.snd
      ∧ Mapper.listQuery (Mapper.listPlan ToLower (some f))
          = Mapper.listQuery ⟨(Mapper.listPlan ToLower (some f)).joins, [], []⟩
            ++ (if activePredicates ToLower f = [] then ""
                else " WHERE "
                  ++ strings.Join ((activePredicates ToLower f).map Prod.fst) " AND ")
      ∧ ¬ "WHERE".data <:+:
          (Mapper.listQuery ⟨(Mapper.listPlan ToLower (some f)).joins, [], []⟩).data) :=
  ⟨vanilla_listPlan_predicates ToLower f, vanilla_listPlan_predicates ToLower f⟩

/-! ### C3 -/

/-- The joins of the `vanilla` plan. -/
theorem vanilla_joins (ToLower : String → String) (f : CharacterFilters) :
    (Vanilla.listPlan ToLower (some f)).joins
      = (if f.ActorID = 0 ∧ f.ActorName ≠ "" then ["JOIN actors a ON a.id = c.actor_id"] else [])
        ++ (if f.SceneNumber ≠ 0 then ["JOIN scene_characters sc ON sc.character_id = c.id"]
            else []) := by
  by_cases ha : f.ActorID = 0 <;> by_cases han : f.ActorName = "" <;>
    by_cases hn : f.Name = "" <;> by_cases hs : f.SceneNumber = 0 <;>
    simp [Vanilla.listPlan, ha, han, hn, hs]

/-- The joins of the `builder` select. -/
theorem builder_joins (ToLower : String → String) (f : CharacterFilters) :
    (Builder.listBuilder ToLower (some f)).joins
      = (if f.ActorID = 0 ∧ f.ActorName ≠ "" then ["JOIN actors a ON a.id = c.actor_id"] else [])
        ++ (if f.SceneNumber ≠ 0 then ["JOIN scene_characters sc ON sc.character_id = c.id"]
            else []) := by
  by_cases ha : f.ActorID = 0 <;> by_cases han : f.ActorName = "" <;>
    by_cases hn : f.Name = "" <;> by_cases hs : f.SceneNumber = 0 <;>
    simp [Builder.listBuilder, Builder.Select, Builder.SelectBuilder.From,
      Builder.SelectBuilder.Join, Builder.SelectBuilder.Where, ha, han, hn, hs]

/-- C3: in `List` of `vanilla`, `mapper` and `builder`, the join clauses built for a
filter hold the join to actors exactly when `ActorID` is zero and `ActorName` is not
empty, the join to scene_characters exactly when `SceneNumber` is not zero, no clause
twice and no other clause; a nil filter builds no join. -/
theorem C3_lazy_joins (ToLower : String → String) (f : CharacterFilters) :
    (∀ joins ∈ [(Vanilla.listPlan ToLower (some f)).joins,
                (Mapper.listPlan ToLower (some f)).joins,
                (Builder.listBuilder ToLower (some f)).joins],
        ("JOIN actors a ON a.id = c.actor_id" ∈ joins ↔ (f.ActorID = 0 ∧ f.ActorName ≠ ""))
        ∧ ("JOIN scene_characters sc ON sc.character_id = c.id" ∈ joins ↔ f.SceneNumber ≠ 0)
        ∧ joins.Nodup
        ∧ ∀ j ∈ joins, j = "JOIN actors a ON a.id = c.actor_id"
            ∨ j = "JOIN scene_characters sc ON sc.character_id = c.id")
    ∧ (Vanilla.listPlan ToLower none).joins = []
    ∧ (Mapper.listPlan ToLower none).joins = []
    ∧ (Builder.listBuilder ToLower none).joins = [] := by
  refine ⟨?_, rfl, rfl, rfl⟩
  intro joins hj
  have hjoins : joins
      = (if f.ActorID = 0 ∧ f.ActorName ≠ "" then ["JOIN actors a ON a.id = c.actor_id"] else [])
        ++ (if f.SceneNumber ≠ 0 then ["JOIN scene_characters sc ON sc.character_id = c.id"]
            else []) := by
    simp only [List.mem_cons, List.mem_singleton, List.not_mem_nil, or_false] at hj
    rcases hj with rfl | rfl | rfl
    · exact vanilla_joins ToLower f
    · rw [mapper_listPlan_eq]; exact vanilla_joins ToLower f
    · exact builder_joins ToLower f
  subst hjoins
  by_cases ha : f.ActorID = 0 ∧ f.ActorName ≠ "" <;> by_cases hs : f.SceneNumber = 0 <;>
    simp [ha, hs]

/-! ### C4 -/

set_option maxRecDepth 20000 in
/-- The engine reads the base select as the unjoined, unrestricted list statement. -/
theorem parse_base :
    parse "SELECT c.id, c.actor_id, c.name FROM characters c" [] = some (Stmt.list [] []) := by
  decide

set_option maxRecDepth 20000 in
/-- The engine reads the select restricted on the character name. -/
theorem parse_name (v : Value) :
    parse "SELECT c.id, c.actor_id, c.name FROM characters c WHERE LOWER(c.name) LIKE ?" [v]
      = some (Stmt.list [] [(Cond.name true, v)]) := by
  have h : parseSelect
      "SELECT c.id, c.actor_id, c.name FROM characters c WHERE LOWER(c.name) LIKE ?"
      = some ([], [Cond.name true]) := by decide
  simp [parse, parseList, h]

/-- Without joins the product is the characters table itself. -/
theorem joinedRows_nil (db : DB) :
    joinedRows db [] = db.characters.map fun c => JoinedRow.mk c none none := by
  unfold joinedRows
  induction db.characters with
  | nil => rfl
  | cons c cs ih => simpa using ih

/-- The loop of `vanilla` and `builder` over well-typed rows keeps every row, in order. -/
theorem scanRows_rows (cs acc : Characters) :
    scanRows (cs.map Character.row) acc = (acc ++ cs, none) := by
  induction cs generalizing acc with
  | nil => simp [scanRows]
  | cons c cs ih => simp [scanRows, scanCharacter, scanInt, scanString, Character.row, ih]

/-- The row scan of `mapper` over well-typed rows keeps every row, in order. -/
theorem selectRows_rows (cs acc : Characters) :
    Mapper.selectRows (cs.map Character.row) acc = (acc ++ cs, none) := by
  induction cs generalizing acc with
  | nil => simp [Mapper.selectRows]
  | cons c cs ih =>
    simp [Mapper.selectRows, scanCharacter, scanInt, scanString, Character.row, ih]

/-- On a connection without fault the base select answers every row of characters. -/
theorem roundTrip_base (db : DB) (h : db.fault = none) :
    db.roundTrip "SELECT c.id, c.actor_id, c.name FROM characters c" []
      = (⟨none, db.characters.map Character.row, 0⟩,
         { db with log := db.log ++ [("SELECT c.id, c.actor_id, c.name FROM characters c", [])] }) := by
  simp [DB.roundTrip, h, parse_base, DB.run, prepares, joinedRows_nil]

set_option maxRecDepth 20000 in
/-- C4: in `List` of `vanilla`, `mapper` and `builder`, a nil filter and a filter with
its four fields zero or empty build the same query: the base select over characters
with no join, no WHERE clause and no argument; and on a connection without fault `List`
then issues that one statement and returns every row of characters, in storage order. -/
theorem C4_match_everything (ToLower : String → String) (db : DB) :
    (Vanilla.listPlan ToLower none = Vanilla.listPlan ToLower (some ⟨0, "", "", 0⟩)
      ∧ Vanilla.listPlan ToLower none = ⟨[], [], []⟩
      ∧ Vanilla.listQuery (Vanilla.listPlan ToLower none)
          = "SELECT c.id, c.actor_id, c.name FROM characters c")
    ∧ (Mapper.listPlan ToLower none = Mapper.listPlan ToLower (some ⟨0, "", "", 0⟩)
      ∧ Mapper.listPlan ToLower none = ⟨[], [], []⟩
      ∧ Mapper.listQuery (Mapper.listPlan ToLower none)
          = "SELECT c.id, c.actor_id, c.name FROM characters c")
    ∧ (Builder.listBuilder ToLower none = Builder.listBuilder ToLower (some ⟨0, "", "", 0⟩)
      ∧ (Builder.listBuilder ToLower none).joins = []
      ∧ (Builder.listBuilder ToLower none).whereParts = []
      ∧ (Builder.listBuilder ToLower none).ToSql
          = ("SELECT c.id, c.actor_id, c.name FROM characters c", []))
    ∧ (db.fault = none → ∀ filters ∈ [none, some (⟨0, "", "", 0⟩ : CharacterFilters)],
        Vanilla.CharacterStore.List ToLower db filters
          = ((db.characters, none),
             { db with log := db.log
                ++ [("SELECT c.id, c.actor_id, c.name FROM characters c", [])] })
        ∧ Mapper.CharacterStore.List ToLower db filters
          = ((db.characters, none),
             { db with log := db.log
                ++ [("SELECT c.id, c.actor_id, c.name FROM characters c", [])] })
        ∧ Builder.CharacterStore.List ToLower db filters
          = ((db.characters, none),
             { db with log := db.log
                ++ [("SELECT c.id, c.actor_id, c.name FROM characters c", [])] })) := by
  have hv : Vanilla.listPlan ToLower none = Vanilla.listPlan ToLower (some ⟨0, "", "", 0⟩) := by
    simp [Vanilla.listPlan]
  have hb : Builder.listBuilder ToLower none
      = Builder.listBuilder ToLower (some ⟨0, "", "", 0⟩) := by
    simp [Builder.listBuilder]
  have hq : Vanilla.listQuery (Vanilla.listPlan ToLower none)
      = "SELECT c.id, c.actor_id, c.name FROM characters c" := by
    show Vanilla.listQuery ⟨[], [], []⟩ = _
    decide
  have hs : (Builder.listBuilder ToLower none).ToSql
      = ("SELECT c.id, c.actor_id, c.name FROM characters c", []) := by
    show ((Builder.Select ["c.id", "c.actor_id", "c.name"]).From "characters c").ToSql = _
    decide
  refine ⟨⟨hv, rfl, hq⟩, ⟨hv, rfl, hq⟩, ⟨hb, rfl, rfl, hs⟩, ?_⟩
  intro h filters hf
  have hplan : Vanilla.listPlan ToLower filters = ⟨[], [], []⟩ := by
    simp only [List.mem_cons, List.mem_singleton, List.not_mem_nil, or_false] at hf
    rcases hf with rfl | rfl
    · rfl
    · rw [← hv]; rfl
  have hbuild : (Builder.listBuilder ToLower filters).ToSql
      = ("SELECT c.id, c.actor_id, c.name FROM characters c", []) := by
    simp only [List.mem_cons, List.mem_singleton, List.not_mem_nil, or_false] at hf
    rcases hf with rfl | rfl
    · exact hs
    · rw [← hb]; exact hs
  have hq0 : Vanilla.listQuery ⟨[], [], []⟩
      = "SELECT c.id, c.actor_id, c.name FROM characters c" := hq
  refine ⟨?_, ?_, ?_⟩
  · simp [Vanilla.CharacterStore.List, hplan, hq0, DB.QueryContext, roundTrip_base db h,
      scanRows_rows]
  · simp [Mapper.CharacterStore.List, mapper_listPlan_eq, mapper_listQuery_eq, hplan, hq0,
      DB.QueryContext, roundTrip_base db h, selectRows_rows]
  · simp [Builder.CharacterStore.List, hbuild, DB.QueryContext, roundTrip_base db h,
      scanRows_rows]

/-- Witness of C4 on the fixture store: the unfiltered `List` returns its two rows. -/
theorem C4_match_everything_witness :
    fixture.fault = none
    ∧ (Vanilla.CharacterStore.List id fixture none).1
        = ([⟨1, 1, "King Arthur"⟩, ⟨2, 1, "Brian"⟩], none) :=
  ⟨rfl, by
    have h := ((C4_match_everything id fixture).2.2.2 rfl none (by simp)).1
    rw [h]; rfl⟩

/-! ### C5 -/

/-- C5: `ListCharacters` of `sqlc` called with a nil filter does not return: reading
`filters.ActorID` in the first case of the switch panics, no generated query is run, and
in particular the outcome is not that of `listAllCharacters`. -/
theorem C5_nil_filter_panics {σ : Type} (q : Sqlc.Queries σ) (s : σ) :
    q.ListCharacters s none
      = Sqlc.Outcome.panic "runtime error: invalid memory address or nil pointer dereference"
    ∧ q.ListCharacters s none ≠ Sqlc.Outcome.returns (q.listAllCharacters s)
    ∧ (q.traced.ListCharacters (s, []) none)
      = Sqlc.Outcome.panic "runtime error: invalid memory address or nil pointer dereference" := by
  simp [Sqlc.Queries.ListCharacters, Sqlc.ListCharacters.switch]

/-! ### C6 -/

/-- Counterexample to C6: for the filter with `Name` "Brother" and `SceneNumber` 3,
`sqlc` runs `listCharactersByName` alone, which restricts on the name only, while
`vanilla` restricts on the name and on the scene. -/
theorem C6_counterexample :
    Sqlc.ListCharacters.switch (some ⟨0, "", "Brother", 3⟩)
      = Sqlc.Outcome.returns (Sqlc.ListCall.listCharactersByName "Brother")
    ∧ (Sqlc.ListCall.listCharactersByName "Brother").where_ = ["LOWER(c.name) LIKE ?"]
    ∧ (Vanilla.listPlan id (some ⟨0, "", "Brother", 3⟩)).where_
        = ["LOWER(c.name) LIKE ?", "sc.scene_id = ?"]
    ∧ "sc.scene_id = ?" ∈ (Vanilla.listPlan id (some ⟨0, "", "Brother", 3⟩)).where_
    ∧ "sc.scene_id = ?" ∉ (Sqlc.ListCall.listCharactersByName "Brother").where_
    ∧ ((Sqlc.Queries.answering 0 none []).traced.ListCharacters ((), [])
          (some ⟨0, "", "Brother", 3⟩))
        = Sqlc.Outcome.returns
            (([], none), ((), [Sqlc.Call.list (Sqlc.ListCall.listCharactersByName "Brother")])) := by
  decide

/-- C6 (amended): for a non-nil filter `ListCharacters` of `sqlc` runs exactly one
generated query, and the predicates of that query are the first of the predicates
`vanilla` builds (in the order actor, name, scene), none when `vanilla` builds none; the
two agree exactly when `vanilla` builds at most one predicate. -/
theorem C6_sqlc_first_predicate (ToLower : String → String) (f : CharacterFilters) :
    ∃ call : Sqlc.ListCall,
      Sqlc.ListCharacters.switch (some f) = Sqlc.Outcome.returns call
      ∧ (∀ (σ : Type) (q : Sqlc.Queries σ) (s : σ),
          q.traced.ListCharacters (s, []) (some f)
            = Sqlc.Outcome.returns ((q.run s call).1, ((q.run s call).2, [Sqlc.Call.list call])))
      ∧ call.where_ = (Vanilla.listPlan ToLower (some f)).where_.take 1
      ∧ (call.where_ = (Vanilla.listPlan ToLower (some f)).where_
          ↔ (Vanilla.listPlan ToLower (some f)).where_.length ≤ 1) := by
  by_cases ha : f.ActorID = 0 <;> by_cases han : f.ActorName = "" <;>
    by_cases hn : f.Name = "" <;> by_cases hs : f.SceneNumber = 0 <;>
    simp [Sqlc.ListCharacters.switch, Sqlc.Queries.ListCharacters, Sqlc.Queries.traced,
      Sqlc.Queries.run, Sqlc.ListCall.where_, Vanilla.listPlan, ha, han, hn, hs]

/-! ### C7 -/

set_option maxRecDepth 100000 in
/-- Counterexample to C7: the filter string `%` builds the pattern `%%%`, which accepts
the name Patsy although Patsy does not contain `%`; `List` with that filter returns
every row of the fixture store. -/
theorem C7_counterexample :
    (Vanilla.listPlan ToLowerASCII (some ⟨0, "", "%", 0⟩)).where_ = ["LOWER(c.name) LIKE ?"]
    ∧ (Vanilla.listPlan ToLowerASCII (some ⟨0, "", "%", 0⟩)).args = [Value.str "%%%"]
    ∧ holds ⟨⟨1, 1, "Patsy"⟩, none, none⟩ (Cond.name true, Value.str "%%%") = true
    ∧ ¬ (ToLowerASCII "%").data <:+: (ToLowerASCII "Patsy").data
    ∧ (Vanilla.CharacterStore.List ToLowerASCII fixture (some ⟨0, "", "%", 0⟩)).1
        = ([⟨1, 1, "King Arthur"⟩, ⟨2, 1, "Brian"⟩], none) := by
  decide

/-- The pattern `%` accepts every text. -/
theorem likeChars_percent (t : List Char) : likeChars ['%'] t = true := by
  simp only [likeChars, if_true, List.any_eq_true]
  exact ⟨[], by simp, rfl⟩

/-- A pattern without wildcards followed by `%` accepts the texts it is a prefix of. -/
theorem likeChars_leading (p t : List Char) (hw : ∀ ch ∈ p, ch ≠ '%' ∧ ch ≠ '_') :
    likeChars (p ++ ['%']) t = true ↔ p <+: t := by
  induction p generalizing t with
  | nil => simp [likeChars_percent]
  | cons c ps ih =>
    have hc := hw c (by simp)
    have hps : ∀ ch ∈ ps, ch ≠ '%' ∧ ch ≠ '_' := fun ch h => hw ch (by simp [h])
    cases t with
    | nil => simp [likeChars, hc.1]
    | cons d u => simp [likeChars, hc.1, hc.2, ih u hps, List.cons_prefix_cons]

/-- A pattern without wildcards between two `%` accepts the texts that contain it. -/
theorem likeChars_inner (p t : List Char) (hw : ∀ ch ∈ p, ch ≠ '%' ∧ ch ≠ '_') :
    likeChars ('%' :: (p ++ ['%'])) t = true ↔ p <:+: t := by
  rw [List.infix_iff_prefix_suffix]
  simp only [likeChars, if_true, List.any_eq_true, List.mem_tails]
  constructor
  · rintro ⟨u, hu, hl⟩
    exact ⟨u, (likeChars_leading p u hw).1 hl, hu⟩
  · rintro ⟨u, hp, hu⟩
    exact ⟨u, hu, (likeChars_leading p u hw).2 hp⟩

/-- The operator LIKE with the pattern `%` + p + `%`, for p without wildcards. -/
theorem LIKE_contains (text p : String) (hw : ∀ ch ∈ p.data, ch ≠ '%' ∧ ch ≠ '_') :
    LIKE text ("%" ++ p ++ "%") = true ↔ p.data <:+: text.data := by
  have h : ("%" ++ p ++ "%").data = '%' :: (p.data ++ ['%']) := by
    simp [String.data_append]
  rw [LIKE, h]
  exact likeChars_inner p.data text.data hw

set_option maxRecDepth 20000 in
/-- C7 (amended): for a non-empty filter string n whose lowered form holds neither `%`
nor `_`, `List` of `vanilla` builds the single predicate `LOWER(c.name) LIKE ?` with the
argument `%` + lower(n) + `%`; that predicate accepts a character named s exactly when
`LOWER(s)` contains lower(n) as a contiguous substring; and on a connection without
fault `List` returns exactly the rows of characters whose name passes this test. -/
theorem C7_name_filter_substring (ToLower : String → String) (n : String) (hn : n ≠ "")
    (hw : ∀ ch ∈ (ToLower n).data, ch ≠ '%' ∧ ch ≠ '_') :
    (Vanilla.listPlan ToLower (some ⟨0, "", n, 0⟩)).where_ = ["LOWER(c.name) LIKE ?"]
    ∧ (Vanilla.listPlan ToLower (some ⟨0, "", n, 0⟩)).args
        = [Value.str ("%" ++ ToLower n ++ "%")]
    ∧ (∀ (id actorID : Int) (s : String) (a : Option Actor) (sc : Option SceneCharacter),
        holds ⟨⟨id, actorID, s⟩, a, sc⟩ (Cond.name true, Value.str ("%" ++ ToLower n ++ "%"))
            = true
          ↔ (ToLower n).data <:+: (LOWER s).data)
    ∧ (∀ db : DB, db.fault = none →
        (Vanilla.CharacterStore.List ToLower db (some ⟨0, "", n, 0⟩)).1
          = (db.characters.filter fun c => decide ((ToLower n).data <:+: (LOWER c.Name).data),
             none)) := by
  have hplan : Vanilla.listPlan ToLower (some ⟨0, "", n, 0⟩)
      = ⟨[], ["LOWER(c.name) LIKE ?"], [Value.str ("%" ++ ToLower n ++ "%")]⟩ := by
    simp [Vanilla.listPlan, hn]
  have hq : Vanilla.listQuery ⟨[], ["LOWER(c.name) LIKE ?"], [Value.str ("%" ++ ToLower n ++ "%")]⟩
      = "SELECT c.id, c.actor_id, c.name FROM characters c WHERE LOWER(c.name) LIKE ?" := by
    simp [Vanilla.listQuery, strings.Join]
  refine ⟨by rw [hplan], by rw [hplan], ?_, ?_⟩
  · intro id actorID s a sc
    simp only [holds]
    exact LIKE_contains (LOWER s) (ToLower n) hw
  · intro db hf
    have hfilter : (db.characters.filter fun c =>
          LIKE (LOWER c.Name) ("%" ++ ToLower n ++ "%"))
        = db.characters.filter fun c => decide ((ToLower n).data <:+: (LOWER c.Name).data) := by
      apply List.filter_congr
      intro c _
      by_cases hc : (ToLower n).data <:+: (LOWER c.Name).data
      · simp [hc, (LIKE_contains (LOWER c.Name) (ToLower n) hw).2 hc]
      · have : ¬ LIKE (LOWER c.Name) ("%" ++ ToLower n ++ "%") = true :=
          fun h => hc ((LIKE_contains (LOWER c.Name) (ToLower n) hw).1 h)
        simp [hc, this]
    simp [Vanilla.CharacterStore.List, hplan, hq, DB.QueryContext, DB.roundTrip, hf,
      parse_name, DB.run, prepares, joinedRows_nil, holds, List.filter_map, Function.comp_def,
      scanRows_rows, hfilter]

/-- Witness of C7 (amended): the filter string Maynard and the name Brother MAYNARD. -/
theorem C7_name_filter_substring_witness :
    "Maynard" ≠ ""
    ∧ (∀ ch ∈ (ToLowerASCII "Maynard").data, ch ≠ '%' ∧ ch ≠ '_')
    ∧ (holds ⟨⟨1, 3, "Brother MAYNARD"⟩, none, none⟩
          (Cond.name true, Value.str ("%" ++ ToLowerASCII "Maynard" ++ "%")) = true
        ↔ (ToLowerASCII "Maynard").data <:+: (LOWER "Brother MAYNARD").data) :=
  ⟨by decide, by decide,
   (C7_name_filter_substring ToLowerASCII "Maynard" (by decide) (by decide)).2.2.1
     1 3 "Brother MAYNARD" none none⟩

/-! ### C8 -/

/-- The engine reads the select by id of `vanilla` and `mapper`. -/
theorem parse_get (id : Int) :
    parse "SELECT id, actor_id, name FROM characters WHERE id = $1" [Value.int id]
      = some (Stmt.get id) := by
  simp [parse]

/-- The engine reads the insert of `vanilla`. -/
theorem parse_insert (actorID : Int) (name : String) :
    parse "INSERT INTO characters (actor_id, name) VALUES ($1, $2) RETURNING id"
        [Value.int actorID, Value.str name]
      = some (Stmt.insert actorID name) := by
  simp [parse]

/-- The engine reads the update of `vanilla`. -/
theorem parse_update (actorID : Int) (name : String) (id : Int) :
    parse "UPDATE characters SET actor_id = $1, name = $2 WHERE id = $3"
        [Value.int actorID, Value.str name, Value.int id]
      = some (Stmt.update actorID name id) := by
  simp [parse]

/-- The engine reads the update of `mapper`. -/
theorem parse_update_named (actorID : Int) (name : String) (id : Int) :
    parse "UPDATE characters SET actor_id = :actor_id, name = :name WHERE id = :id"
        [Value.int actorID, Value.str name, Value.int id]
      = some (Stmt.update actorID name id) := by
  simp [parse]

/-- The engine reads the delete of `vanilla` and `mapper`. -/
theorem parse_delete (id : Int) :
    parse "DELETE FROM characters WHERE id = $1" [Value.int id] = some (Stmt.delete id) := by
  simp [parse]

/-- C8: `Store` of `vanilla` and `StoreCharacter` of `sqlc` dispatch on the id. With
`c.ID` zero, exactly one INSERT with `(c.ActorID, c.Name)` is issued, `ActorID` and
`Name` are left as they were, and when the call returns no error `c.ID` is the id in
the row the store returned (which a connection without fault does return). With `c.ID`
not zero, negative or not, exactly one UPDATE with `(c.ActorID, c.Name, c.ID)` is
issued, no INSERT, and `c` is left as it was. -/
theorem C8_store_dispatch (db : DB) (c : Character) :
    (c.ID = 0 →
      (Vanilla.CharacterStore.Store db c).2.log
          = db.log ++ [("INSERT INTO characters (actor_id, name) VALUES ($1, $2) RETURNING id",
              [Value.int c.ActorID, Value.str c.Name])]
      ∧ (Vanilla.CharacterStore.Store db c).1.1.ActorID = c.ActorID
      ∧ (Vanilla.CharacterStore.Store db c).1.1.Name = c.Name
      ∧ ((Vanilla.CharacterStore.Store db c).1.2 = none →
          (db.QueryRowContext
              "INSERT INTO characters (actor_id, name) VALUES ($1, $2) RETURNING id"
              [Value.int c.ActorID, Value.str c.Name]).1.rows
            = [[Value.int (Vanilla.CharacterStore.Store db c).1.1.ID]])
      ∧ (db.fault = none → (Vanilla.CharacterStore.Store db c).1.2 = none))
    ∧ (c.ID ≠ 0 →
      (Vanilla.CharacterStore.Store db c).2.log
          = db.log ++ [("UPDATE characters SET actor_id = $1, name = $2 WHERE id = $3",
              [Value.int c.ActorID, Value.str c.Name, Value.int c.ID])]
      ∧ (Vanilla.CharacterStore.Store db c).1.1 = c)
    ∧ ∀ (σ : Type) (q : Sqlc.Queries σ) (s : σ),
      (c.ID = 0 →
        (q.traced.StoreCharacter (s, []) c).2.2
            = [Sqlc.Call.insertCharacter ⟨c.ActorID, c.Name⟩]
        ∧ (q.StoreCharacter s c).1.1.ActorID = c.ActorID
        ∧ (q.StoreCharacter s c).1.1.Name = c.Name
        ∧ ((q.StoreCharacter s c).1.2 = none →
            (q.StoreCharacter s c).1.1.ID = (q.insertCharacter s ⟨c.ActorID, c.Name⟩).1.1)
        ∧ (q.StoreCharacter s c).1.2 = (q.insertCharacter s ⟨c.ActorID, c.Name⟩).1.2)
      ∧ (c.ID ≠ 0 →
        (q.traced.StoreCharacter (s, []) c).2.2
            = [Sqlc.Call.updateCharacter ⟨c.ID, c.ActorID, c.Name⟩]
        ∧ (q.StoreCharacter s c).1.1 = c) := by
  refine ⟨?_, ?_, ?_⟩
  · intro h
    cases hf : db.fault <;>
      simp [Vanilla.CharacterStore.Store, h, Vanilla.CharacterStore.insert,
        DB.QueryRowContext, DB.roundTrip, hf, parse_insert, DB.run, Row.Scan, scanID, scanInt]
  · intro h
    cases hf : db.fault with
    | some e =>
      simp [Vanilla.CharacterStore.Store, h, Vanilla.CharacterStore.update,
        DB.ExecContext, DB.roundTrip, hf]
    | none =>
      simp only [Vanilla.CharacterStore.Store, h, Vanilla.CharacterStore.update,
        DB.ExecContext, DB.roundTrip, hf, parse_update, DB.run, if_false, and_true]
      split <;> rfl
  · intro σ q s
    constructor
    · intro h
      cases he : (q.insertCharacter s ⟨c.ActorID, c.Name⟩).1.2 <;>
        simp [Sqlc.Queries.StoreCharacter, Sqlc.Queries.traced, h, he]
    · intro h
      simp [Sqlc.Queries.StoreCharacter, Sqlc.Queries.traced, h]

/-- Witness of C8 on the fixture store: a new character is inserted and gets the id 3;
a character with the id -5 goes to UPDATE and is left as it was. -/
theorem C8_store_dispatch_witness :
    ((⟨0, 1, "Sir Not-Appearing-in-this-Film"⟩ : Character).ID = 0
      ∧ fixture.fault = none
      ∧ (Vanilla.CharacterStore.Store fixture ⟨0, 1, "Sir Not-Appearing-in-this-Film"⟩).1.2
          = none)
    ∧ ((⟨-5, 1, "Patsy"⟩ : Character).ID ≠ 0
      ∧ (Vanilla.CharacterStore.Store fixture ⟨-5, 1, "Patsy"⟩).1.1 = ⟨-5, 1, "Patsy"⟩) :=
  ⟨⟨rfl, rfl,
    ((C8_store_dispatch fixture ⟨0, 1, "Sir Not-Appearing-in-this-Film"⟩).1 rfl).2.2.2.2 rfl⟩,
   ⟨by decide, ((C8_store_dispatch fixture ⟨-5, 1, "Patsy"⟩).2.1 (by decide)).2⟩⟩

/-! ### C9 -/

/-- No row counted for an id exactly when no row has the id. -/
theorem count_eq_zero_iff (cs : Characters) (id : Int) :
    (cs.filter fun c => decide (c.ID = id)).length = 0 ↔ ∀ r ∈ cs, r.ID ≠ id := by
  simp [List.filter_eq_nil_iff]

/-- An UPDATE on an id that no row has leaves the table as it was. -/
theorem update_missing (cs : Characters) (actorID : Int) (name : String) (id : Int)
    (h : ∀ r ∈ cs, r.ID ≠ id) :
    cs.map (fun c => if c.ID = id then (⟨c.ID, actorID, name⟩ : Character) else c) = cs := by
  induction cs with
  | nil => rfl
  | cons c cs ih =>
    have hc : c.ID ≠ id := h c (by simp)
    simp [hc, ih (fun r hr => h r (by simp [hr]))]

/-- The method `update` of `vanilla` on a connection without fault. -/
theorem vanilla_update_eq (db : DB) (c : Character) (hf : db.fault = none) :
    Vanilla.CharacterStore.update db c
      = (if (db.characters.filter fun r => decide (r.ID = c.ID)).length = 0
          then some Error.ErrNotFound else none,
         { db with
            characters := db.characters.map fun r =>
              if r.ID = c.ID then (⟨r.ID, c.ActorID, c.Name⟩ : Character) else r,
            log := db.log ++ [("UPDATE characters SET actor_id = $1, name = $2 WHERE id = $3",
              [Value.int c.ActorID, Value.str c.Name, Value.int c.ID])] }) := by
  simp only [Vanilla.CharacterStore.update, DB.ExecContext, DB.roundTrip, hf, parse_update,
    DB.run]
  split <;> rfl

/-- The method `update` of `mapper` on a connection without fault. -/
theorem mapper_update_eq (db : DB) (c : Character) (hf : db.fault = none) :
    Mapper.CharacterStore.update db c
      = (if (db.characters.filter fun r => decide (r.ID = c.ID)).length = 0
          then some Error.ErrNotFound else none,
         { db with
            characters := db.characters.map fun r =>
              if r.ID = c.ID then (⟨r.ID, c.ActorID, c.Name⟩ : Character) else r,
            log := db.log
              ++ [("UPDATE characters SET actor_id = :actor_id, name = :name WHERE id = :id",
              [Value.int c.ActorID, Value.str c.Name, Value.int c.ID])] }) := by
  simp only [Mapper.CharacterStore.update, DB.ExecContext, DB.roundTrip, hf,
    parse_update_named, DB.run]
  split <;> rfl

/-- C9: on a connection without fault, `Store` of `vanilla` and of `mapper` on a
character with a non-zero id that no row has returns exactly `ErrNotFound` and leaves
the rows of characters as they were; when a row has the id, `Store` returns no error. -/
theorem C9_store_missing_id (db : DB) (c : Character) (hid : c.ID ≠ 0)
    (hf : db.fault = none) :
    ((∀ r ∈ db.characters, r.ID ≠ c.ID) →
      (Vanilla.CharacterStore.Store db c).1.2 = some Error.ErrNotFound
      ∧ (Vanilla.CharacterStore.Store db c).2.characters = db.characters
      ∧ (Mapper.CharacterStore.Store db c).1.2 = some Error.ErrNotFound
      ∧ (Mapper.CharacterStore.Store db c).2.characters = db.characters)
    ∧ ((∃ r ∈ db.characters, r.ID = c.ID) →
      (Vanilla.CharacterStore.Store db c).1.2 = none
      ∧ (Mapper.CharacterStore.Store db c).1.2 = none) := by
  constructor
  · intro h
    have h0 := (count_eq_zero_iff db.characters c.ID).2 h
    simp [Vanilla.CharacterStore.Store, Mapper.CharacterStore.Store, hid,
      vanilla_update_eq db c hf, mapper_update_eq db c hf, h0,
      update_missing db.characters c.ActorID c.Name c.ID h]
  · rintro ⟨r, hr, hrid⟩
    have h0 : ¬ (db.characters.filter fun r => decide (r.ID = c.ID)).length = 0 := by
      rw [count_eq_zero_iff]
      intro h
      exact h r hr hrid
    simp [Vanilla.CharacterStore.Store, Mapper.CharacterStore.Store, hid,
      vanilla_update_eq db c hf, mapper_update_eq db c hf, h0]

/-- Witness of C9 on the fixture store: no row has the id 7, a row has the id 2. -/
theorem C9_store_missing_id_witness :
    ((7 : Int) ≠ 0 ∧ fixture.fault = none ∧ (∀ r ∈ fixture.characters, r.ID ≠ 7)
      ∧ (Vanilla.CharacterStore.Store fixture ⟨7, 1, "Tim"⟩).1.2 = some Error.ErrNotFound)
    ∧ ((2 : Int) ≠ 0 ∧ (∃ r ∈ fixture.characters, r.ID = 2)
      ∧ (Vanilla.CharacterStore.Store fixture ⟨2, 1, "Tim"⟩).1.2 = none) :=
  ⟨⟨by decide, rfl, by decide,
    ((C9_store_missing_id fixture ⟨7, 1, "Tim"⟩ (by decide) rfl).1 (by decide)).1⟩,
   ⟨by decide, by decide,
    ((C9_store_missing_id fixture ⟨2, 1, "Tim"⟩ (by decide) rfl).2 (by decide)).1⟩⟩

/-! ### C10 -/

/-- The method `Delete` of `vanilla` on a connection without fault. -/
theorem vanilla_Delete_eq (db : DB) (id : Int) (hf : db.fault = none) :
    Vanilla.CharacterStore.Delete db id
      = (if (db.characters.filter fun r => decide (r.ID = id)).length = 0
          then some Error.ErrNotFound else none,
         { db with
            characters := db.characters.filter fun r => decide (¬ r.ID = id),
            log := db.log ++ [("DELETE FROM characters WHERE id = $1", [Value.int id])] }) := by
  simp only [Vanilla.CharacterStore.Delete, DB.ExecContext, DB.roundTrip, hf, parse_delete,
    DB.run]
  split <;> rfl

/-- The method `Delete` of `mapper` on a connection without fault. -/
theorem mapper_Delete_eq (db : DB) (id : Int) (hf : db.fault = none) :
    Mapper.CharacterStore.Delete db id
      = (if (db.characters.filter fun r => decide (r.ID = id)).length = 0
          then some Error.ErrNotFound else none,
         { db with
            characters := db.characters.filter fun r => decide (¬ r.ID = id),
            log := db.log ++ [("DELETE FROM characters WHERE id = $1", [Value.int id])] }) := by
  simp only [Mapper.CharacterStore.Delete, DB.ExecContext, DB.roundTrip, hf, parse_delete,
    DB.run]
  split <;> rfl

/-- The method `Get` of `vanilla` for an id that no row has, on a connection without
fault: a nil character, no error, the tables as they were. -/
theorem vanilla_Get_missing (db : DB) (id : Int) (hf : db.fault = none)
    (h : ∀ r ∈ db.characters, r.ID ≠ id) :
    Vanilla.CharacterStore.Get db id
      = ((none, none),
         { db with log := db.log
            ++ [("SELECT id, actor_id, name FROM characters WHERE id = $1", [Value.int id])] }) := by
  have h0 : (db.characters.filter fun r => decide (r.ID = id)) = [] := by
    simpa [List.filter_eq_nil_iff] using h
  simp [Vanilla.CharacterStore.Get, DB.QueryRowContext, DB.roundTrip, hf, parse_get, DB.run,
    h0, Row.Scan, errors.Is, Error.Is]

/-- The method `Get` of `mapper` for an id that no row has, on a connection without
fault. -/
theorem mapper_Get_missing (db : DB) (id : Int) (hf : db.fault = none)
    (h : ∀ r ∈ db.characters, r.ID ≠ id) :
    Mapper.CharacterStore.Get db id
      = ((none, none),
         { db with log := db.log
            ++ [("SELECT id, actor_id, name FROM characters WHERE id = $1", [Value.int id])] }) := by
  have h0 : (db.characters.filter fun r => decide (r.ID = id)) = [] := by
    simpa [List.filter_eq_nil_iff] using h
  simp [Mapper.CharacterStore.Get, DB.QueryRowContext, DB.roundTrip, hf, parse_get, DB.run,
    h0, Row.Scan, errors.Is, Error.Is]

/-- C10: on a connection without fault and for an id that some row of characters has,
in `vanilla` and in `mapper`, `Delete` returns no error, the `Get` that follows returns
a nil character and no error, and the second `Delete` returns exactly `ErrNotFound`. -/
theorem C10_delete_not_idempotent (db : DB) (id : Int) (hf : db.fault = none)
    (h : ∃ r ∈ db.characters, r.ID = id) :
    ((Vanilla.CharacterStore.Delete db id).1 = none
      ∧ (Vanilla.CharacterStore.Get (Vanilla.CharacterStore.Delete db id).2 id).1 = (none, none)
      ∧ (Vanilla.CharacterStore.Delete
          (Vanilla.CharacterStore.Get (Vanilla.CharacterStore.Delete db id).2 id).2 id).1
          = some Error.ErrNotFound)
    ∧ ((Mapper.CharacterStore.Delete db id).1 = none
      ∧ (Mapper.CharacterStore.Get (Mapper.CharacterStore.Delete db id).2 id).1 = (none, none)
      ∧ (Mapper.CharacterStore.Delete
          (Mapper.CharacterStore.Get (Mapper.CharacterStore.Delete db id).2 id).2 id).1
          = some Error.ErrNotFound) := by
  obtain ⟨r, hr, hrid⟩ := h
  have h0 : ¬ (db.characters.filter fun r => decide (r.ID = id)).length = 0 := by
    rw [count_eq_zero_iff]
    intro h
    exact h r hr hrid
  have hgone : ∀ x ∈ (db.characters.filter fun r => decide (¬ r.ID = id)), x.ID ≠ id := by
    intro x hx
    simpa using (List.mem_filter.1 hx).2
  constructor
  · have hd := vanilla_Delete_eq db id hf
    simp only [h0, if_false] at hd
    have hf1 : (Vanilla.CharacterStore.Delete db id).2.fault = none := by rw [hd]; exact hf
    have hc1 : ∀ x ∈ (Vanilla.CharacterStore.Delete db id).2.characters, x.ID ≠ id := by
      rw [hd]; exact hgone
    have hg := vanilla_Get_missing _ id hf1 hc1
    have hf2 : (Vanilla.CharacterStore.Get (Vanilla.CharacterStore.Delete db id).2 id).2.fault
        = none := by rw [hg]; exact hf1
    have hc2 : ((Vanilla.CharacterStore.Get (Vanilla.CharacterStore.Delete db id).2
        id).2.characters.filter fun r => decide (r.ID = id)).length = 0 := by
      rw [hg]; exact (count_eq_zero_iff _ id).2 hc1
    have hd2 := vanilla_Delete_eq _ id hf2
    simp only [hc2, if_true] at hd2
    exact ⟨by rw [hd], by rw [hg], by rw [hd2]⟩
  · have hd := mapper_Delete_eq db id hf
    simp only [h0, if_false] at hd
    have hf1 : (Mapper.CharacterStore.Delete db id).2.fault = none := by rw [hd]; exact hf
    have hc1 : ∀ x ∈ (Mapper.CharacterStore.Delete db id).2.characters, x.ID ≠ id := by
      rw [hd]; exact hgone
    have hg := mapper_Get_missing _ id hf1 hc1
    have hf2 : (Mapper.CharacterStore.Get (Mapper.CharacterStore.Delete db id).2 id).2.fault
        = none := by rw [hg]; exact hf1
    have hc2 : ((Mapper.CharacterStore.Get (Mapper.CharacterStore.Delete db id).2
        id).2.characters.filter fun r => decide (r.ID = id)).length = 0 := by
      rw [hg]; exact (count_eq_zero_iff _ id).2 hc1
    have hd2 := mapper_Delete_eq _ id hf2
    simp only [hc2, if_true] at hd2
    exact ⟨by rw [hd], by rw [hg], by rw [hd2]⟩

/-- Witness of C10 on the fixture store, for the id 2. -/
theorem C10_delete_not_idempotent_witness :
    fixture.fault = none ∧ (∃ r ∈ fixture.characters, r.ID = 2)
    ∧ (Vanilla.CharacterStore.Delete fixture 2).1 = none
    ∧ (Vanilla.CharacterStore.Get (Vanilla.CharacterStore.Delete fixture 2).2 2).1
        = (none, none)
    ∧ (Vanilla.CharacterStore.Delete
        (Vanilla.CharacterStore.Get (Vanilla.CharacterStore.Delete fixture 2).2 2).2 2).1
        = some Error.ErrNotFound :=
  ⟨rfl, by decide, (C10_delete_not_idempotent fixture 2 rfl (by decide)).1⟩

/-! ### C11 -/

/-- The running maximum is at least its start and at least every id it has seen. -/
theorem le_foldl_max (cs : Characters) (m : Int) :
    m ≤ cs.foldl (fun m x => max m x.ID) m
    ∧ ∀ r ∈ cs, r.ID ≤ cs.foldl (fun m x => max m x.ID) m := by
  induction cs generalizing m with
  | nil => simp
  | cons c cs ih =>
    have h1 := (ih (max m c.ID)).1
    have h2 := (ih (max m c.ID)).2
    refine ⟨le_trans (le_max_left m c.ID) h1, ?_⟩
    intro r hr
    rcases List.mem_cons.1 hr with rfl | hr
    · exact le_trans (le_max_right m r.ID) h1
    · exact h2 r hr

/-- The key of an inserted row is larger than every key in use. -/
theorem lt_nextID (cs : Characters) : ∀ r ∈ cs, r.ID < nextID cs := by
  cases cs with
  | nil => simp
  | cons c cs =>
    intro r hr
    have h := le_foldl_max cs c.ID
    simp only [nextID]
    rcases List.mem_cons.1 hr with rfl | hr
    · exact Int.lt_add_one_iff.2 h.1
    · exact Int.lt_add_one_iff.2 (h.2 r hr)

/-- With positive keys in use the key of an inserted row is positive. -/
theorem nextID_pos (cs : Characters) (h : ∀ r ∈ cs, 0 < r.ID) : 0 < nextID cs := by
  cases cs with
  | nil => simp [nextID]
  | cons c cs => exact lt_trans (h c (by simp)) (lt_nextID (c :: cs) c (by simp))

/-- The engine reads the insert of `mapper`. -/
theorem parse_insert_named (actorID : Int) (name : String) :
    parse "INSERT INTO characters (actor_id, name) VALUES (:actor_id, :name) RETURNING id"
        [Value.int actorID, Value.str name]
      = some (Stmt.insert actorID name) := by
  simp [parse]

/-- The method `insert` of `vanilla` on a connection without fault. -/
theorem vanilla_insert_eq (db : DB) (c : Character) (hf : db.fault = none) :
    Vanilla.CharacterStore.insert db c
      = ((⟨nextID db.characters, c.ActorID, c.Name⟩, none),
         { db with
            characters := db.characters ++ [⟨nextID db.characters, c.ActorID, c.Name⟩],
            log := db.log
              ++ [("INSERT INTO characters (actor_id, name) VALUES ($1, $2) RETURNING id",
                [Value.int c.ActorID, Value.str c.Name])] }) := by
  simp [Vanilla.CharacterStore.insert, DB.QueryRowContext, DB.roundTrip, hf, parse_insert,
    DB.run, Row.Scan, scanID, scanInt]

/-- The method `insert` of `mapper` on a connection without fault. -/
theorem mapper_insert_eq (db : DB) (c : Character) (hf : db.fault = none) :
    Mapper.CharacterStore.insert db c
      = ((⟨nextID db.characters, c.ActorID, c.Name⟩, none),
         { db with
            characters := db.characters ++ [⟨nextID db.characters, c.ActorID, c.Name⟩],
            log := db.log
              ++ [("INSERT INTO characters (actor_id, name) VALUES (:actor_id, :name) RETURNING id",
                [Value.int c.ActorID, Value.str c.Name])] }) := by
  simp [Mapper.CharacterStore.insert, DB.QueryContext, DB.roundTrip, hf, parse_insert_named,
    DB.run, Mapper.insertRows, scanID, scanInt]

/-- On a faulty connection `insert` of `vanilla` returns an error. -/
theorem vanilla_insert_fault (db : DB) (c : Character) (e : Error) (hf : db.fault = some e) :
    (Vanilla.CharacterStore.insert db c).1.2 = some e := by
  simp [Vanilla.CharacterStore.insert, DB.QueryRowContext, DB.roundTrip, hf, Row.Scan]

/-- On a faulty connection `insert` of `mapper` returns an error. -/
theorem mapper_insert_fault (db : DB) (c : Character) (e : Error) (hf : db.fault = some e) :
    (Mapper.CharacterStore.insert db c).1.2 = some (Error.wrap "insert character" e) := by
  simp [Mapper.CharacterStore.insert, DB.QueryContext, DB.roundTrip, hf]

/-- After an insert exactly one row has the new key: the inserted one. -/
theorem filter_inserted (cs : Characters) (actorID : Int) (name : String) :
    ((cs ++ [(⟨nextID cs, actorID, name⟩ : Character)]).filter
        fun r => decide (r.ID = nextID cs))
      = [⟨nextID cs, actorID, name⟩] := by
  have h : (cs.filter fun r => decide (r.ID = nextID cs)) = [] := by
    rw [List.filter_eq_nil_iff]
    intro r hr
    simpa using ne_of_lt (lt_nextID cs r hr)
  simp [List.filter_append, h]

/-- The method `Get` of `vanilla` on a connection without fault, when rows have the id:
the first of them is returned, with no error. -/
theorem vanilla_Get_first (db : DB) (id : Int) (hf : db.fault = none) (r : Character)
    (rest : Characters) (h : (db.characters.filter fun x => decide (x.ID = id)) = r :: rest) :
    (Vanilla.CharacterStore.Get db id).1 = (some r, none) := by
  simp [Vanilla.CharacterStore.Get, DB.QueryRowContext, DB.roundTrip, hf, parse_get, DB.run,
    h, Row.Scan, scanCharacter, scanInt, scanString, Character.row, errors.Is]

/-- The method `Get` of `mapper` on a connection without fault, when rows have the id. -/
theorem mapper_Get_first (db : DB) (id : Int) (hf : db.fault = none) (r : Character)
    (rest : Characters) (h : (db.characters.filter fun x => decide (x.ID = id)) = r :: rest) :
    (Mapper.CharacterStore.Get db id).1 = (some r, none) := by
  simp [Mapper.CharacterStore.Get, DB.QueryRowContext, DB.roundTrip, hf, parse_get, DB.run,
    h, Row.Scan, scanCharacter, scanInt, scanString, Character.row, errors.Is]

/-- Positive ids are an invariant of the `vanilla` store: after `Store` and after
`Delete` every row of characters has a positive id if every row had one before. -/
theorem vanilla_positive_ids (db : DB) (h : ∀ r ∈ db.characters, 0 < r.ID) :
    (∀ c : Character, ∀ r ∈ (Vanilla.CharacterStore.Store db c).2.characters, 0 < r.ID)
    ∧ (∀ id : Int, ∀ r ∈ (Vanilla.CharacterStore.Delete db id).2.characters, 0 < r.ID) := by
  cases hf : db.fault with
  | some e =>
    constructor
    · intro c r hr
      by_cases hc : c.ID = 0
      · simp [Vanilla.CharacterStore.Store, hc, Vanilla.CharacterStore.insert,
          DB.QueryRowContext, DB.roundTrip, hf] at hr
        exact h r hr
      · simp [Vanilla.CharacterStore.Store, hc, Vanilla.CharacterStore.update,
          DB.ExecContext, DB.roundTrip, hf] at hr
        exact h r hr
    · intro id r hr
      simp [Vanilla.CharacterStore.Delete, DB.ExecContext, DB.roundTrip, hf] at hr
      exact h r hr
  | none =>
    constructor
    · intro c r hr
      by_cases hc : c.ID = 0
      · simp [Vanilla.CharacterStore.Store, hc, vanilla_insert_eq db c hf] at hr
        rcases hr with hr | rfl
        · exact h r hr
        · exact nextID_pos db.characters h
      · simp only [Vanilla.CharacterStore.Store, hc, if_false, vanilla_update_eq db c hf,
          List.mem_map] at hr
        obtain ⟨x, hx, rfl⟩ := hr
        by_cases hxc : x.ID = c.ID
        · simpa [hxc] using (hxc ▸ h x hx)
        · simpa [hxc] using h x hx
    · intro id r hr
      simp only [vanilla_Delete_eq db id hf] at hr
      exact h r (List.mem_filter.1 hr).1

/-- Positive ids are an invariant of the `mapper` store as well. -/
theorem mapper_positive_ids (db : DB) (h : ∀ r ∈ db.characters, 0 < r.ID) :
    (∀ c : Character, ∀ r ∈ (Mapper.CharacterStore.Store db c).2.characters, 0 < r.ID)
    ∧ (∀ id : Int, ∀ r ∈ (Mapper.CharacterStore.Delete db id).2.characters, 0 < r.ID) := by
  cases hf : db.fault with
  | some e =>
    constructor
    · intro c r hr
      by_cases hc : c.ID = 0
      · simp [Mapper.CharacterStore.Store, hc, Mapper.CharacterStore.insert,
          DB.QueryContext, DB.roundTrip, hf] at hr
        exact h r hr
      · simp [Mapper.CharacterStore.Store, hc, Mapper.CharacterStore.update,
          DB.ExecContext, DB.roundTrip, hf] at hr
        exact h r hr
    · intro id r hr
      simp [Mapper.CharacterStore.Delete, DB.ExecContext, DB.roundTrip, hf] at hr
      exact h r hr
  | none =>
    constructor
    · intro c r hr
      by_cases hc : c.ID = 0
      · simp [Mapper.CharacterStore.Store, hc, mapper_insert_eq db c hf] at hr
        rcases hr with hr | rfl
        · exact h r hr
        · exact nextID_pos db.characters h
      · simp only [Mapper.CharacterStore.Store, hc, if_false, mapper_update_eq db c hf,
          List.mem_map] at hr
        obtain ⟨x, hx, rfl⟩ := hr
        by_cases hxc : x.ID = c.ID
        · simpa [hxc] using (hxc ▸ h x hx)
        · simpa [hxc] using h x hx
    · intro id r hr
      simp only [mapper_Delete_eq db id hf] at hr
      exact h r (List.mem_filter.1 hr).1

/-- The running maximum is its start or the id of a row it has seen. -/
theorem foldl_max_attained (cs : Characters) (m : Int) :
    cs.foldl (fun m x => max m x.ID) m = m
    ∨ ∃ r ∈ cs, cs.foldl (fun m x => max m x.ID) m = r.ID := by
  induction cs generalizing m with
  | nil => simp
  | cons c cs ih =>
    rcases ih (max m c.ID) with h | ⟨r, hr, h⟩
    · rcases max_choice m c.ID with hm | hm
      · left
        rw [List.foldl_cons, h]
        exact hm
      · right
        refine ⟨c, by simp, ?_⟩
        rw [List.foldl_cons, h]
        exact hm
    · right
      exact ⟨r, by simp [hr], by simpa using h⟩

/-- The generated key is 1 in an empty table and otherwise one more than the id of a
row that no other row exceeds. -/
theorem nextID_largest (cs : Characters) :
    (cs = [] ∧ nextID cs = 1)
    ∨ ∃ r ∈ cs, nextID cs = r.ID + 1 ∧ ∀ x ∈ cs, x.ID ≤ r.ID := by
  cases cs with
  | nil => exact Or.inl ⟨rfl, rfl⟩
  | cons c cs =>
    right
    have hle := le_foldl_max cs c.ID
    rcases foldl_max_attained cs c.ID with h | ⟨r, hr, h⟩
    · refine ⟨c, by simp, by simp [nextID, h], ?_⟩
      intro x hx
      rcases List.mem_cons.1 hx with rfl | hx
      · exact le_refl _
      · exact h ▸ hle.2 x hx
    · refine ⟨r, by simp [hr], by simp [nextID, h], ?_⟩
      intro x hx
      rcases List.mem_cons.1 hx with rfl | hx
      · exact h ▸ hle.1
      · exact h ▸ hle.2 x hx

/-- While the ids in use are below the largest `int64`, so is or equals the generated
key. -/
theorem nextID_le_max (cs : Characters) (h : ∀ r ∈ cs, r.ID < 9223372036854775807) :
    nextID cs ≤ 9223372036854775807 := by
  rcases nextID_largest cs with ⟨_, h1⟩ | ⟨r, hr, h1, _⟩
  · rw [h1]; decide
  · rw [h1]; exact Int.add_one_le_iff.2 (h r hr)

/-- Counterexample to C11: in a table whose only row has the id -1, `Store` of a
character with `ID` zero returns no error and leaves `ID` zero, in `vanilla` and in
`mapper`; the `Get` of that id still returns the stored character. -/
theorem C11_counterexample :
    negativeIDs.fault = none
    ∧ (Vanilla.CharacterStore.Store negativeIDs ⟨0, 1, "Tim"⟩).1 = (⟨0, 1, "Tim"⟩, none)
    ∧ ¬ 0 < (Vanilla.CharacterStore.Store negativeIDs ⟨0, 1, "Tim"⟩).1.1.ID
    ∧ (Vanilla.CharacterStore.Store negativeIDs ⟨0, 1, "Tim"⟩).2.characters
        = [⟨-1, 1, "Patsy"⟩, ⟨0, 1, "Tim"⟩]
    ∧ (Mapper.CharacterStore.Store negativeIDs ⟨0, 1, "Tim"⟩).1 = (⟨0, 1, "Tim"⟩, none)
    ∧ ¬ 0 < (Mapper.CharacterStore.Store negativeIDs ⟨0, 1, "Tim"⟩).1.1.ID
    ∧ (Vanilla.CharacterStore.Get
          (Vanilla.CharacterStore.Store negativeIDs ⟨0, 1, "Tim"⟩).2 0).1
        = (some ⟨0, 1, "Tim"⟩, none) := by
  decide

/-- C11 (amended): in `vanilla` and in `mapper`, for a character with `ID` zero and a
table whose ids are below the largest `int64`, when `Store` returns no error the `Get`
of the id now in the character returns a character equal to it field for field, with
no error; `ActorID` and `Name` are those given; the id is the one the store generated,
1 in an empty table and otherwise one more than the largest id in use, so it is an
`int64` again and it is positive when the ids in use are positive; and on a
connection without fault `Store` does return no error. -/
theorem C11_insert_get_round_trip (db : DB) (c : Character) (h0 : c.ID = 0)
    (hmax : ∀ r ∈ db.characters, r.ID < 9223372036854775807) :
    ((Vanilla.CharacterStore.Store db c).1.2 = none →
      (Vanilla.CharacterStore.Get (Vanilla.CharacterStore.Store db c).2
          (Vanilla.CharacterStore.Store db c).1.1.ID).1
        = (some (Vanilla.CharacterStore.Store db c).1.1, none)
      ∧ (Vanilla.CharacterStore.Store db c).1.1.ActorID = c.ActorID
      ∧ (Vanilla.CharacterStore.Store db c).1.1.Name = c.Name
      ∧ ((∀ r ∈ db.characters, 0 < r.ID) → 0 < (Vanilla.CharacterStore.Store db c).1.1.ID)
      ∧ ((db.characters = [] ∧ (Vanilla.CharacterStore.Store db c).1.1.ID = 1)
          ∨ ∃ r ∈ db.characters, (Vanilla.CharacterStore.Store db c).1.1.ID = r.ID + 1
              ∧ ∀ x ∈ db.characters, x.ID ≤ r.ID)
      ∧ (Vanilla.CharacterStore.Store db c).1.1.ID ≤ 9223372036854775807)
    ∧ ((Mapper.CharacterStore.Store db c).1.2 = none →
      (Mapper.CharacterStore.Get (Mapper.CharacterStore.Store db c).2
          (Mapper.CharacterStore.Store db c).1.1.ID).1
        = (some (Mapper.CharacterStore.Store db c).1.1, none)
      ∧ (Mapper.CharacterStore.Store db c).1.1.ActorID = c.ActorID
      ∧ (Mapper.CharacterStore.Store db c).1.1.Name = c.Name
      ∧ ((∀ r ∈ db.characters, 0 < r.ID) → 0 < (Mapper.CharacterStore.Store db c).1.1.ID)
      ∧ ((db.characters = [] ∧ (Mapper.CharacterStore.Store db c).1.1.ID = 1)
          ∨ ∃ r ∈ db.characters, (Mapper.CharacterStore.Store db c).1.1.ID = r.ID + 1
              ∧ ∀ x ∈ db.characters, x.ID ≤ r.ID)
      ∧ (Mapper.CharacterStore.Store db c).1.1.ID ≤ 9223372036854775807)
    ∧ (db.fault = none →
      (Vanilla.CharacterStore.Store db c).1.2 = none
      ∧ (Mapper.CharacterStore.Store db c).1.2 = none) := by
  have hv : Vanilla.CharacterStore.Store db c = Vanilla.CharacterStore.insert db c := by
    simp [Vanilla.CharacterStore.Store, h0]
  have hm : Mapper.CharacterStore.Store db c = Mapper.CharacterStore.insert db c := by
    simp [Mapper.CharacterStore.Store, h0]
  refine ⟨?_, ?_, ?_⟩
  · intro hs
    have hf : db.fault = none := by
      cases hfa : db.fault with
      | none => rfl
      | some e =>
        rw [hv, vanilla_insert_fault db c e hfa] at hs
        exact absurd hs (by simp)
    rw [hv, vanilla_insert_eq db c hf]
    refine ⟨?_, rfl, rfl, fun hp => nextID_pos db.characters hp,
      nextID_largest db.characters, nextID_le_max db.characters hmax⟩
    refine vanilla_Get_first _ _ ?_ _ [] ?_
    · exact hf
    · exact filter_inserted db.characters c.ActorID c.Name
  · intro hs
    have hf : db.fault = none := by
      cases hfa : db.fault with
      | none => rfl
      | some e =>
        rw [hm, mapper_insert_fault db c e hfa] at hs
        exact absurd hs (by simp)
    rw [hm, mapper_insert_eq db c hf]
    refine ⟨?_, rfl, rfl, fun hp => nextID_pos db.characters hp,
      nextID_largest db.characters, nextID_le_max db.characters hmax⟩
    refine mapper_Get_first _ _ ?_ _ [] ?_
    · exact hf
    · exact filter_inserted db.characters c.ActorID c.Name
  · intro hf
    rw [hv, hm, vanilla_insert_eq db c hf, mapper_insert_eq db c hf]
    exact ⟨rfl, rfl⟩

/-- Witness of C11 (amended) on the fixture store: the character of the test is stored
with the id 3 and read back. -/
theorem C11_insert_get_round_trip_witness :
    (⟨0, 1, "Sir Not-Appearing-in-this-Film"⟩ : Character).ID = 0
    ∧ (∀ r ∈ fixture.characters, r.ID < 9223372036854775807)
    ∧ (Vanilla.CharacterStore.Store fixture ⟨0, 1, "Sir Not-Appearing-in-this-Film"⟩).1.2 = none
    ∧ (∀ r ∈ fixture.characters, 0 < r.ID)
    ∧ (Vanilla.CharacterStore.Get
          (Vanilla.CharacterStore.Store fixture ⟨0, 1, "Sir Not-Appearing-in-this-Film"⟩).2
          (Vanilla.CharacterStore.Store fixture ⟨0, 1, "Sir Not-Appearing-in-this-Film"⟩).1.1.ID).1
        = (some (Vanilla.CharacterStore.Store fixture
            ⟨0, 1, "Sir Not-Appearing-in-this-Film"⟩).1.1, none)
    ∧ 0 < (Vanilla.CharacterStore.Store fixture ⟨0, 1, "Sir Not-Appearing-in-this-Film"⟩).1.1.ID :=
  have hb : ∀ r ∈ fixture.characters, r.ID < 9223372036854775807 := by decide
  have hs : (Vanilla.CharacterStore.Store fixture
      ⟨0, 1, "Sir Not-Appearing-in-this-Film"⟩).1.2 = none :=
    ((C11_insert_get_round_trip fixture ⟨0, 1, "Sir Not-Appearing-in-this-Film"⟩ rfl hb).2.2
      rfl).1
  have hp : ∀ r ∈ fixture.characters, 0 < r.ID := by decide
  ⟨rfl, hb, hs, hp,
   ((C11_insert_get_round_trip fixture ⟨0, 1, "Sir Not-Appearing-in-this-Film"⟩ rfl hb).1
      hs).1,
   ((C11_insert_get_round_trip fixture ⟨0, 1, "Sir Not-Appearing-in-this-Film"⟩ rfl hb).1
      hs).2.2.2.1 hp⟩

/-! ### C12 -/

/-- An error is its own cause. -/
theorem Error.Is_self (e : Error) : e.Is e = true := by
  cases e <;> simp [Error.Is]

/-- Counterexample to C12: on a connection that fails with a driver error, `Get` of
`vanilla` returns that error as it is, with no context around it, and so does `Store` on
the insert path. -/
theorem C12_counterexample :
    faulty.fault = some (Error.driver "connection refused")
    ∧ (Vanilla.CharacterStore.Get faulty 1).1
        = (some ⟨0, 0, ""⟩, some (Error.driver "connection refused"))
    ∧ (Vanilla.CharacterStore.Store faulty ⟨0, 1, "Tim"⟩).1.2
        = some (Error.driver "connection refused")
    ∧ (Vanilla.CharacterStore.Get faulty 1).1.2
        ≠ some (Error.wrap "get character" (Error.driver "connection refused"))
    ∧ (Vanilla.CharacterStore.Store faulty ⟨0, 1, "Tim"⟩).1.2
        ≠ some (Error.wrap "insert character" (Error.driver "connection refused")) := by
  decide

/-- C12 (amended): when the single store call of an operation of the `vanilla` store
fails with e, `Store` on the update path, `Delete` and `List` return e wrapped with the
context `update character`, `delete character`, `list characters`; `Get` returns e as it
is (unless e is the no-row result); and on every path, the insert path of `Store`
included, the returned error has e as its cause and is `ErrNotFound` only if e is. -/
theorem C12_failures_carry_context (ToLower : String → String) (db : DB) (e : Error)
    (hf : db.fault = some e) :
    (∀ c : Character, c.ID ≠ 0 →
      (Vanilla.CharacterStore.Store db c).1.2 = some (Error.wrap "update character" e))
    ∧ (∀ id : Int,
      (Vanilla.CharacterStore.Delete db id).1 = some (Error.wrap "delete character" e))
    ∧ (∀ filters : Option CharacterFilters,
      (Vanilla.CharacterStore.List ToLower db filters).1
        = ([], some (Error.wrap "list characters" e)))
    ∧ (∀ id : Int, e.Is Error.ErrNoRows = false →
      (Vanilla.CharacterStore.Get db id).1 = (some ⟨0, 0, ""⟩, some e))
    ∧ (∀ c : Character, c.ID = 0 →
      errors.Is (Vanilla.CharacterStore.Store db c).1.2 e = true
      ∧ ((Vanilla.CharacterStore.Store db c).1.2 = some Error.ErrNotFound
          → e = Error.ErrNotFound))
    ∧ (∀ ctx : String, errors.Is (some (Error.wrap ctx e)) e = true
      ∧ Error.wrap ctx e ≠ Error.ErrNotFound) := by
  refine ⟨?_, ?_, ?_, ?_, ?_, ?_⟩
  · intro c hc
    simp [Vanilla.CharacterStore.Store, hc, Vanilla.CharacterStore.update, DB.ExecContext,
      DB.roundTrip, hf]
  · intro id
    simp [Vanilla.CharacterStore.Delete, DB.ExecContext, DB.roundTrip, hf]
  · intro filters
    simp [Vanilla.CharacterStore.List, DB.QueryContext, DB.roundTrip, hf]
  · intro id he
    simp [Vanilla.CharacterStore.Get, DB.QueryRowContext, DB.roundTrip, hf, Row.Scan,
      errors.Is, he]
  · intro c hc
    have h : (Vanilla.CharacterStore.Store db c).1.2 = some e := by
      simp [Vanilla.CharacterStore.Store, hc, vanilla_insert_fault db c e hf]
    rw [h]
    refine ⟨by simp [errors.Is, Error.Is_self], ?_⟩
    intro h2
    exact Option.some.inj h2
  · intro ctx
    refine ⟨by simp [errors.Is, Error.Is, Error.Is_self], by simp⟩

/-- Witness of C12 (amended) on the faulty fixture: the update of the character 2. -/
theorem C12_failures_carry_context_witness :
    faulty.fault = some (Error.driver "connection refused")
    ∧ (2 : Int) ≠ 0
    ∧ (Vanilla.CharacterStore.Store faulty ⟨2, 1, "Tim"⟩).1.2
        = some (Error.wrap "update character" (Error.driver "connection refused"))
    ∧ (Error.driver "connection refused").Is Error.ErrNoRows = false
    ∧ (Vanilla.CharacterStore.Get faulty 2).1
        = (some ⟨0, 0, ""⟩, some (Error.driver "connection refused")) :=
  ⟨rfl, by decide,
   (C12_failures_carry_context id faulty (Error.driver "connection refused") rfl).1
     ⟨2, 1, "Tim"⟩ (by decide),
   by decide,
   (C12_failures_carry_context id faulty (Error.driver "connection refused") rfl).2.2.2.1
     2 (by decide)⟩

/-! ### C13 -/

/-- A list of joins without repetition is one of five. -/
theorem nodup_joins (joins : List JoinTable) (h : joins.Nodup) :
    joins = [] ∨ joins = [JoinTable.actors] ∨ joins = [JoinTable.scene_characters]
    ∨ joins = [JoinTable.actors, JoinTable.scene_characters]
    ∨ joins = [JoinTable.scene_characters, JoinTable.actors] := by
  match joins, h with
  | [], _ => simp
  | [x], _ => cases x <;> simp
  | [x, y], h => cases x <;> cases y <;> simp_all
  | x :: y :: z :: rest, h => cases x <;> cases y <;> cases z <;> simp_all

/-- The engine prepares a list statement exactly when no table is joined twice, every
argument has the type of its column and every column resolves in exactly one table of
the FROM list. -/
theorem prepares_iff_resolves (joins : List JoinTable) (conds : List (Cond × Value)) :
    prepares joins conds = true
      ↔ joins.Nodup ∧ ∀ ca ∈ conds, Cond.typed ca = true
          ∧ (resolve (Table.characters :: joins.map JoinTable.table) ca.1.column).length = 1 := by
  simp only [prepares, Bool.and_eq_true, decide_eq_true_eq, List.all_eq_true]
  constructor
  · rintro ⟨hnd, h⟩
    refine ⟨hnd, ?_⟩
    intro ca hca
    have hc := h ca hca
    clear h hca
    obtain ⟨cond, v⟩ := ca
    rcases nodup_joins joins hnd with rfl | rfl | rfl | rfl | rfl <;>
      rcases cond with ⟨_ | _⟩ | _ | ⟨_ | _⟩ | _ <;> cases v <;>
      simp_all [Cond.typed] <;> decide
  · rintro ⟨hnd, h⟩
    refine ⟨hnd, ?_⟩
    intro ca hca
    have hc := h ca hca
    clear h hca
    obtain ⟨cond, v⟩ := ca
    rcases nodup_joins joins hnd with rfl | rfl | rfl | rfl | rfl <;>
      rcases cond with ⟨_ | _⟩ | _ | ⟨_ | _⟩ | _ <;> cases v <;>
      simp_all [Cond.typed] <;> revert hc <;> decide

set_option maxRecDepth 100000 in
/-- In the query of `builder` for a filter with `Name` set, every column of a predicate
resolves in exactly one table if and only if the join to actors is not attached. -/
theorem builder_resolution (ToLower : String → String) (f : CharacterFilters)
    (hn : f.Name ≠ "") :
    resolvesUniquely (Builder.listBuilder ToLower (some f)).ToSql.1 = true
      ↔ ¬ (f.ActorID = 0 ∧ f.ActorName ≠ "") := by
  by_cases ha : f.ActorID = 0 <;> by_cases han : f.ActorName = "" <;>
    by_cases hs : f.SceneNumber = 0 <;>
    simp [Builder.listBuilder, Builder.Select, Builder.SelectBuilder.From,
      Builder.SelectBuilder.Join, Builder.SelectBuilder.Where, Builder.SelectBuilder.ToSql,
      strings.Join, ha, han, hn, hs] <;> decide

set_option maxRecDepth 100000 in
/-- In the query of `vanilla` every column of a predicate resolves in exactly one table,
for every filter. -/
theorem vanilla_resolution (ToLower : String → String) (f : CharacterFilters) :
    resolvesUniquely (Vanilla.listQuery (Vanilla.listPlan ToLower (some f))) = true := by
  by_cases ha : f.ActorID = 0 <;> by_cases han : f.ActorName = "" <;>
    by_cases hn : f.Name = "" <;> by_cases hs : f.SceneNumber = 0 <;>
    simp [Vanilla.listPlan, Vanilla.listQuery, strings.Join, ha, han, hn, hs] <;> decide

set_option maxRecDepth 100000 in
/-- C13: for the filter with `ActorName` Graham and `Name` Arthur, `List` of `builder`
joins actors and writes the name predicate with the bare column `name`, which resolves
in two tables of the FROM list, characters and actors; the statement does not prepare
and `List` returns the wrapped driver error. The query of `vanilla` for the same filter
writes `c.name`, resolves every column in one table and returns King Arthur. -/
theorem C13_builder_name_ambiguous :
    (Builder.listBuilder ToLowerASCII (some ⟨0, "Graham", "Arthur", 0⟩)).ToSql
      = ("SELECT c.id, c.actor_id, c.name FROM characters c JOIN actors a ON a.id = c.actor_id WHERE LOWER(a.name) LIKE ? AND LOWER(name) LIKE ?",
         [Value.str "%graham%", Value.str "%arthur%"])
    ∧ fromList (Builder.listBuilder ToLowerASCII (some ⟨0, "Graham", "Arthur", 0⟩)).ToSql.1
        = some [Table.characters, Table.actors]
    ∧ predicateColumns
          (Builder.listBuilder ToLowerASCII (some ⟨0, "Graham", "Arthur", 0⟩)).ToSql.1
        = some [⟨some "a", "name"⟩, ⟨none, "name"⟩]
    ∧ resolve [Table.characters, Table.actors] ⟨none, "name"⟩
        = [Table.characters, Table.actors]
    ∧ resolvesUniquely
          (Builder.listBuilder ToLowerASCII (some ⟨0, "Graham", "Arthur", 0⟩)).ToSql.1
        = false
    ∧ (Builder.CharacterStore.List ToLowerASCII fixture (some ⟨0, "Graham", "Arthur", 0⟩)).1
        = ([], some (Error.wrap "list characters" (Error.driver "prepare")))
    ∧ predicateColumns
          (Vanilla.listQuery (Vanilla.listPlan ToLowerASCII (some ⟨0, "Graham", "Arthur", 0⟩)))
        = some [⟨some "a", "name"⟩, ⟨some "c", "name"⟩]
    ∧ resolve [Table.characters, Table.actors] ⟨some "c", "name"⟩ = [Table.characters]
    ∧ resolvesUniquely
          (Vanilla.listQuery (Vanilla.listPlan ToLowerASCII (some ⟨0, "Graham", "Arthur", 0⟩)))
        = true
    ∧ (Vanilla.CharacterStore.List ToLowerASCII fixture (some ⟨0, "Graham", "Arthur", 0⟩)).1
        = ([⟨1, 1, "King Arthur"⟩], none) := by
  decide

end GoDBModels
